import Mathlib

/-!
ISO 4217 / ISO 639 code parsing (package `iso`)

A shallow embedding of `src/iso/currency.go` and `src/iso/language.go`.

Go strings are modelled by Lean `String` (a sequence of Unicode scalar values), `len` by the
UTF-8 byte size, and byte slices by the string holding the same bytes (`[]byte(s)` and
`string(b)` copy the bytes unchanged). Strings that are not valid UTF-8 are outside the model.

`strings.ToUpper` and `strings.ToLower` map every rune through `unicode.ToUpper` and
`unicode.ToLower`. On ASCII these are the usual letter shifts and are modelled exactly; above
ASCII they consult the Unicode case tables of the Go standard library, which are not part of
this repository and are carried as the parameter `CaseTables`.
-/

namespace Iso

/-- Unicode case tables of the Go standard library for runes at or above `utf8.RuneSelf`. -/
structure CaseTables where
  upper : Char → Char
  lower : Char → Char

/-- ASCII branch of `unicode.ToUpper`: letters `a`..`z` are shifted by `'a' - 'A'`. -/
def asciiToUpper (r : Char) : Char :=
  if 97 ≤ r.toNat ∧ r.toNat ≤ 122 then Char.ofNat (r.toNat - 32) else r

/-- ASCII branch of `unicode.ToLower`: letters `A`..`Z` are shifted by `'a' - 'A'`. -/
def asciiToLower (r : Char) : Char :=
  if 65 ≤ r.toNat ∧ r.toNat ≤ 90 then Char.ofNat (r.toNat + 32) else r

/-- Go `unicode.ToUpper`. -/
def unicodeToUpper (tbl : CaseTables) (r : Char) : Char :=
  if r.toNat < 128 then asciiToUpper r else tbl.upper r

/-- Go `unicode.ToLower`. -/
def unicodeToLower (tbl : CaseTables) (r : Char) : Char :=
  if r.toNat < 128 then asciiToLower r else tbl.lower r

/-- Go `strings.ToUpper`. -/
def ToUpper (tbl : CaseTables) (s : String) : String :=
  String.mk (s.data.map (unicodeToUpper tbl))

/-- Go `strings.ToLower`. -/
def ToLower (tbl : CaseTables) (s : String) : String :=
  String.mk (s.data.map (unicodeToLower tbl))

/-- Go `len(s)` for a string: the number of bytes. -/
def len (s : String) : Nat := s.utf8ByteSize

/-- Every rune of the string is below `utf8.RuneSelf`. -/
def asciiOnly (s : String) : Bool := s.data.all (fun c => decide (c.toNat < 128))

/-- Case tables that leave every rune above ASCII alone; used to evaluate ASCII inputs. -/
def asciiTables : CaseTables := ⟨id, id⟩

/-- The slice ISO_4217_CURRENCY_CODES of currency.go, in source order. -/
def ISO_4217_CURRENCY_CODES : List String := [
  "AED", "AFN", "ALL", "AMD", "ANG", "AOA", "ARS", "AUD", "AWG", "AZN",
  "BAM", "BBD", "BDT", "BGN", "BHD", "BIF", "BMD", "BND", "BOB", "BOV",
  "BRL", "BSD", "BTN", "BWP", "BYN", "BYR", "BZD", "CAD", "CDF", "CHE",
  "CHF", "CHW", "CLF", "CLP", "CNY", "COP", "COU", "CRC", "CUC", "CUP",
  "CVE", "CZK", "DJF", "DKK", "DOP", "DZD", "EGP", "ERN", "ETB", "EUR",
  "FJD", "FKP", "GBP", "GEL", "GHS", "GIP", "GMD", "GNF", "GTQ", "GYD",
  "HKD", "HNL", "HRK", "HTG", "HUF", "IDR", "ILS", "INR", "IQD", "IRR",
  "ISK", "JMD", "JOD", "JPY", "KES", "KGS", "KHR", "KMF", "KPW", "KRW",
  "KWD", "KYD", "KZT", "LAK", "LBP", "LKR", "LRD", "LSL", "LYD", "MAD",
  "MDL", "MGA", "MKD", "MMK", "MNT", "MOP", "MRO", "MUR", "MVR", "MWK",
  "MXN", "MXV", "MYR", "MZN", "NAD", "NGN", "NIO", "NOK", "NPR", "NZD",
  "OMR", "PAB", "PEN", "PGK", "PHP", "PKR", "PLN", "PYG", "QAR", "RON",
  "RSD", "RUB", "RWF", "SAR", "SBD", "SCR", "SDG", "SEK", "SGD", "SHP",
  "SLL", "SOS", "SRD", "SSP", "STD", "SVC", "SYP", "SZL", "THB", "TJS",
  "TMT", "TND", "TOP", "TRY", "TTD", "TWD", "TZS", "UAH", "UGX", "USD",
  "USN", "UYI", "UYU", "UZS", "VEF", "VND", "VUV", "WST", "XAF", "XAG",
  "XAU", "XBA", "XBB", "XBC", "XBD", "XCD", "XDR", "XOF", "XPD", "XPF",
  "XPT", "XSU", "XTS", "XUA", "XXX", "YER", "ZAR", "ZMW", "ZWL"
]

/-- The slice ISO_639_1_2002_CODES of language.go, in source order. -/
def ISO_639_1_2002_CODES : List String := [
  "aa", "ab", "ae", "af", "ak", "am", "an", "ar", "as", "av", "ay", "az",
  "ba", "be", "bg", "bh", "bi", "bm", "bn", "bo", "br", "bs", "ca", "ce",
  "ch", "co", "cr", "cs", "cu", "cv", "cy", "da", "de", "dv", "dz", "ee",
  "el", "en", "eo", "es", "et", "eu", "fa", "ff", "fi", "fj", "fo", "fr",
  "fy", "ga", "gd", "gl", "gn", "gu", "gv", "ha", "he", "hi", "ho", "hr",
  "ht", "hu", "hy", "hz", "ia", "id", "ie", "ig", "ii", "ik", "io", "is",
  "it", "iu", "ja", "jv", "ka", "kg", "ki", "kj", "kk", "kl", "km", "kn",
  "ko", "kr", "ks", "ku", "kv", "kw", "ky", "la", "lb", "lg", "li", "ln",
  "lo", "lt", "lu", "lv", "mg", "mh", "mi", "mk", "ml", "mn", "mr", "ms",
  "mt", "my", "na", "nb", "nd", "ne", "ng", "nl", "nn", "no", "nr", "nv",
  "ny", "oc", "oj", "om", "or", "os", "pa", "pi", "pl", "ps", "pt", "qu",
  "rm", "rn", "ro", "ru", "rw", "sa", "sc", "sd", "se", "sg", "si", "sk",
  "sl", "sm", "sn", "so", "sq", "sr", "ss", "st", "su", "sv", "sw", "ta",
  "te", "tg", "th", "ti", "tk", "tl", "tn", "to", "tr", "ts", "tt", "tw",
  "ty", "ug", "uk", "ur", "uz", "ve", "vi", "vo", "wa", "wo", "xh", "yi",
  "yo", "za", "zh", "zu"
]

/-- The slice ISO_639_2B_1998_CODES of language.go, in source order. -/
def ISO_639_2B_1998_CODES : List String := [
  "alb", "arm", "baq", "bur", "chi", "cze", "dut", "fre", "geo", "ger",
  "gre", "ice", "mac", "mao", "may", "per", "rum", "slo", "tib", "wel"
]

/-- The slice ISO_639_2T_1998_CODES of language.go, in source order. -/
def ISO_639_2T_1998_CODES : List String := [
  "aar", "abk", "ace", "ach", "ada", "ady", "afa", "afh", "afr", "ain",
  "aka", "akk", "ale", "alg", "alt", "amh", "ang", "anp", "apa", "ara",
  "arc", "arg", "arn", "arp", "art", "arw", "asm", "ast", "ath", "aus",
  "ava", "ave", "awa", "aym", "aze", "bad", "bai", "bak", "bal", "bam",
  "ban", "bas", "bat", "bej", "bel", "bem", "ben", "ber", "bho", "bih",
  "bik", "bin", "bis", "bla", "bnt", "bod", "bos", "bra", "bre", "btk",
  "bua", "bug", "bul", "byn", "cad", "cai", "car", "cat", "cau", "ceb",
  "cel", "ces", "cha", "chb", "che", "chg", "chk", "chm", "chn", "cho",
  "chp", "chr", "chu", "chv", "chy", "cmc", "cop", "cor", "cos", "cpe",
  "cpf", "cpp", "cre", "crh", "crp", "csb", "cus", "cym", "dak", "dan",
  "dar", "day", "del", "den", "deu", "dgr", "din", "div", "doi", "dra",
  "dsb", "dua", "dum", "dyu", "dzo", "efi", "egy", "eka", "ell", "elx",
  "eng", "enm", "epo", "est", "eus", "ewe", "ewo", "fan", "fao", "fas",
  "fat", "fij", "fil", "fin", "fiu", "fon", "fra", "frm", "fro", "frr",
  "frs", "fry", "ful", "fur", "gaa", "gay", "gba", "gem", "gez", "gil",
  "gla", "gle", "glg", "glv", "gmh", "goh", "gon", "gor", "got", "grb",
  "grc", "grn", "gsw", "guj", "gwi", "hai", "hat", "hau", "haw", "heb",
  "her", "hil", "him", "hin", "hit", "hmn", "hmo", "hrv", "hsb", "hun",
  "hup", "hye", "iba", "ibo", "ido", "iii", "ijo", "iku", "ile", "ilo",
  "ina", "inc", "ind", "ine", "inh", "ipk", "ira", "iro", "isl", "isl",
  "ita", "jav", "jbo", "jpn", "jpr", "jrb", "kaa", "kab", "kac", "kal",
  "kam", "kan", "kar", "kas", "kat", "kau", "kaw", "kaz", "kbd", "kha",
  "khi", "khm", "kho", "kik", "kin", "kir", "kmb", "kok", "kom", "kon",
  "kor", "kos", "kpe", "krc", "krl", "kro", "kru", "kua", "kum", "kur",
  "kut", "lad", "lah", "lam", "lao", "lat", "lav", "lez", "lim", "lin",
  "lit", "lol", "loz", "ltz", "lua", "lub", "lug", "lui", "lun", "luo",
  "lus", "mad", "mag", "mah", "mai", "mak", "mal", "man", "map", "mar",
  "mas", "mdf", "mdr", "men", "mga", "mic", "min", "mis", "mkd", "mkh",
  "mlg", "mlt", "mnc", "mni", "mno", "moh", "mon", "mos", "mri", "msa",
  "mul", "mun", "mus", "mwl", "mwr", "mya", "myn", "myv", "nah", "nai",
  "nap", "nau", "nav", "nbl", "nde", "ndo", "nds", "nep", "new", "nia",
  "nic", "niu", "nld", "nno", "nob", "nog", "non", "nor", "nqo", "nso",
  "nub", "nwc", "nya", "nym", "nyn", "nyo", "nzi", "oci", "oji", "ori",
  "orm", "osa", "oss", "ota", "oto", "paa", "pag", "pal", "pam", "pan",
  "pap", "pau", "peo", "phi", "phn", "pli", "pol", "pon", "por", "pra",
  "pro", "pus", "qaa", "que", "raj", "rap", "rar", "roa", "roh", "rom",
  "ron", "run", "rup", "rus", "sad", "sag", "sah", "sai", "sal", "sam",
  "san", "sas", "sat", "scn", "sco", "sel", "sem", "sga", "sgn", "shn",
  "sid", "sin", "sio", "sit", "sla", "slk", "slv", "sma", "sme", "smi",
  "smj", "smn", "smo", "sms", "sna", "snd", "snk", "sog", "som", "son",
  "sot", "spa", "sqi", "srd", "srn", "srp", "srr", "ssa", "ssw", "suk",
  "sun", "sus", "sux", "swa", "swe", "syc", "syr", "tah", "tai", "tam",
  "tat", "tel", "tem", "ter", "tet", "tgk", "tgl", "tha", "tig", "tir",
  "tiv", "tkl", "tlh", "tli", "tmh", "tog", "ton", "tpi", "tsi", "tsn",
  "tso", "tuk", "tum", "tup", "tur", "tut", "tvl", "twi", "tyv", "udm",
  "uga", "uig", "ukr", "umb", "und", "urd", "uzb", "vai", "ven", "vie",
  "vol", "vot", "wak", "wal", "war", "was", "wen", "wln", "wol", "xal",
  "xho", "yao", "yap", "yid", "yor", "ypk", "zap", "zbl", "zen", "zgh",
  "zha", "zho", "znd", "zul", "zun", "zxx", "zza"
]

/-- The map ISO_639_2B_TO_2T_MAP of language.go as an association list (Go rejects duplicate literal keys, so the first match is the only match). -/
def ISO_639_2B_TO_2T_MAP : List (String × String) := [
  ("alb", "sqi"), ("arm", "hye"), ("baq", "eus"), ("bur", "mya"), ("chi", "zho"), ("cze", "ces"),
  ("dut", "nld"), ("fre", "fra"), ("geo", "kat"), ("ger", "deu"), ("gre", "ell"), ("ice", "isl"),
  ("mac", "mkd"), ("mao", "mri"), ("may", "msa"), ("per", "fas"), ("rum", "ron"), ("slo", "slk"),
  ("tib", "bod"), ("wel", "cym")
]

/-- The map ISO_639_1_TO_2T_MAP of language.go as an association list. -/
def ISO_639_1_TO_2T_MAP : List (String × String) := [
  ("aa", "aar"), ("ab", "abk"), ("ae", "ave"), ("af", "afr"), ("ak", "aka"), ("am", "amh"),
  ("an", "arg"), ("ar", "ara"), ("as", "asm"), ("av", "ava"), ("ay", "aym"), ("az", "aze"),
  ("ba", "bak"), ("be", "bel"), ("bg", "bul"), ("bh", "bih"), ("bi", "bis"), ("bm", "bam"),
  ("bn", "ben"), ("bo", "bod"), ("br", "bre"), ("bs", "bos"), ("ca", "cat"), ("ce", "che"),
  ("ch", "cha"), ("co", "cos"), ("cr", "cre"), ("cs", "ces"), ("cu", "chu"), ("cv", "chv"),
  ("cy", "cym"), ("da", "dan"), ("de", "deu"), ("dv", "div"), ("dz", "dzo"), ("ee", "ewe"),
  ("el", "ell"), ("en", "eng"), ("eo", "epo"), ("es", "spa"), ("et", "est"), ("eu", "eus"),
  ("fa", "fas"), ("ff", "ful"), ("fi", "fin"), ("fj", "fij"), ("fo", "fao"), ("fr", "fra"),
  ("fy", "fry"), ("ga", "gle"), ("gd", "gla"), ("gl", "glg"), ("gn", "grn"), ("gu", "guj"),
  ("gv", "glv"), ("ha", "hau"), ("he", "heb"), ("hi", "hin"), ("ho", "hmo"), ("hr", "hrv"),
  ("ht", "hat"), ("hu", "hun"), ("hy", "hye"), ("hz", "her"), ("ia", "ina"), ("id", "ind"),
  ("ie", "ile"), ("ig", "ibo"), ("ii", "iii"), ("ik", "ipk"), ("io", "ido"), ("is", "isl"),
  ("it", "ita"), ("iu", "iku"), ("ja", "jpn"), ("jv", "jav"), ("ka", "kat"), ("kg", "kon"),
  ("ki", "kik"), ("kj", "kua"), ("kk", "kaz"), ("kl", "kal"), ("km", "khm"), ("kn", "kan"),
  ("ko", "kor"), ("kr", "kau"), ("ks", "kas"), ("ku", "kur"), ("kv", "kom"), ("kw", "cor"),
  ("ky", "kir"), ("la", "lat"), ("lb", "ltz"), ("lg", "lug"), ("li", "lim"), ("ln", "lin"),
  ("lo", "lao"), ("lt", "lit"), ("lu", "lub"), ("lv", "lav"), ("mg", "mlg"), ("mh", "mah"),
  ("mi", "mri"), ("mk", "mkd"), ("ml", "mal"), ("mn", "mon"), ("mr", "mar"), ("ms", "msa"),
  ("mt", "mlt"), ("my", "mya"), ("na", "nau"), ("nb", "nob"), ("nd", "nde"), ("ne", "nep"),
  ("ng", "ndo"), ("nl", "nld"), ("nn", "nno"), ("no", "nor"), ("nr", "nbl"), ("nv", "nav"),
  ("ny", "nya"), ("oc", "oci"), ("oj", "oji"), ("om", "orm"), ("or", "ori"), ("os", "oss"),
  ("pa", "pan"), ("pi", "pli"), ("pl", "pol"), ("ps", "pus"), ("pt", "por"), ("qu", "que"),
  ("rm", "roh"), ("rn", "run"), ("ro", "ron"), ("ru", "rus"), ("rw", "kin"), ("sa", "san"),
  ("sc", "srd"), ("sd", "snd"), ("se", "sme"), ("sg", "sag"), ("si", "sin"), ("sk", "slk"),
  ("sl", "slv"), ("sm", "smo"), ("sn", "sna"), ("so", "som"), ("sq", "sqi"), ("sr", "srp"),
  ("ss", "ssw"), ("st", "sot"), ("su", "sun"), ("sv", "swe"), ("sw", "swa"), ("ta", "tam"),
  ("te", "tel"), ("tg", "tgk"), ("th", "tha"), ("ti", "tir"), ("tk", "tuk"), ("tl", "tgl"),
  ("tn", "tsn"), ("to", "ton"), ("tr", "tur"), ("ts", "tso"), ("tt", "tat"), ("tw", "twi"),
  ("ty", "tah"), ("ug", "uig"), ("uk", "ukr"), ("ur", "urd"), ("uz", "uzb"), ("ve", "ven"),
  ("vi", "vie"), ("vo", "vol"), ("wa", "wln"), ("wo", "wol"), ("xh", "xho"), ("yi", "yid"),
  ("yo", "yor"), ("za", "zha"), ("zh", "zho"), ("zu", "zul")
]

/-! ## currency.go -/

/-- Go `type Currency string`. -/
abbrev Currency := String

/-- Go `CurrencyUndefined`. -/
def CurrencyUndefined : Currency := ""

/-- The loop `for _, x := range codes { if x == c { return c } }`: the value returned from
inside the loop, or `none` when the loop runs to its end. -/
def rangeFind (c : String) : List String → Option String
  | [] => none
  | x :: xs => if x = c then some c else rangeFind c xs

/-- Go `ParseCurrency`. -/
def ParseCurrency (tbl : CaseTables) (c : String) : Currency :=
  let c := ToUpper tbl c
  match rangeFind c ISO_4217_CURRENCY_CODES with
  | some r => r
  | none => CurrencyUndefined

/-- Go `Currency.IsValid`. -/
def Currency.IsValid (r : Currency) : Bool := r != CurrencyUndefined

/-- Go `Currency.MarshalText`: the bytes of the code and a nil error. -/
def Currency.MarshalText (r : Currency) : String × Option String := (r, none)

/-- Go `(*Currency).UnmarshalText`: the receiver after the call and the returned error
(`none` for nil). -/
def Currency.UnmarshalText (tbl : CaseTables) (r : Currency) (data : String) :
    Currency × Option String :=
  let rr := ParseCurrency tbl data
  if !rr.IsValid then
    (r, some ("iso: invalid ISO currency code \x27" ++ data ++ "\x27"))
  else
    (rr, none)

/-! ## language.go -/

/-- Go `type Language string`. -/
abbrev Language := String

/-- Go `LanguageUndefined`. -/
def LanguageUndefined : Language := ""

/-- Go map index `v, ok := m[k]`. -/
def mapGet (m : List (String × String)) (k : String) : Option String :=
  match m with
  | [] => none
  | (a, b) :: rest => if a = k then some b else mapGet rest k

/-- The loop `for _, x := range codes { if x == l { if v, ok := m[x]; ok { return v } } }`:
the value returned from inside the loop, or `none` when the loop runs to its end. -/
def rangeFindMapped (m : List (String × String)) (l : String) : List String → Option String
  | [] => none
  | x :: xs =>
    if x = l then
      match mapGet m x with
      | some v => some v
      | none => rangeFindMapped m l xs
    else rangeFindMapped m l xs

/-- Go `ParseLanguage`. -/
def ParseLanguage (tbl : CaseTables) (l : String) : Language :=
  let l := ToLower tbl l
  if len l = 2 then
    match rangeFindMapped ISO_639_1_TO_2T_MAP l ISO_639_1_2002_CODES with
    | some v => v
    | none => LanguageUndefined
  else if len l = 3 then
    match rangeFind l ISO_639_2T_1998_CODES with
    | some v => v
    | none =>
      match rangeFindMapped ISO_639_2B_TO_2T_MAP l ISO_639_2B_1998_CODES with
      | some v => v
      | none => LanguageUndefined
  else LanguageUndefined

/-- Go `Language.IsValid`. -/
def Language.IsValid (r : Language) : Bool := r != LanguageUndefined

/-- Go `Language.MarshalText`: the bytes of the code and a nil error. -/
def Language.MarshalText (r : Language) : String × Option String := (r, none)

/-- Go `(*Language).UnmarshalText`: the receiver after the call and the returned error
(`none` for nil). -/
def Language.UnmarshalText (tbl : CaseTables) (r : Language) (data : String) :
    Language × Option String :=
  let rr := ParseLanguage tbl data
  if !rr.IsValid then
    (r, some ("iso: invalid ISO 639-1/2BT:2002 language code \x27" ++ data ++ "\x27"))
  else
    (rr, none)


/-! ## Numbers and strings of the Go standard library, as currency.go uses them

A `float64` is modelled by its exact value, so `math.Modf`, `math.Abs` and `math.Signbit` are
exact, and `fmt.Sprintf` with the verb `%.Nf` prints the exact value correctly rounded to N
decimals, ties to even, as `strconv` does. String slicing counts positions in runes, which is
the byte position for the ASCII strings that currency.go slices. A slice expression whose
bounds are out of range panics in Go; the functions that use one return `none` for a panic.
-/

/-- Go `float64` by value: a finite number is `(-1)^neg * mant * 2^exp`; besides there are the
two infinities and NaN, each with a sign bit. -/
inductive Float64 where
  | finite (neg : Bool) (mant : Nat) (exp : Int)
  | inf (neg : Bool)
  | nan (neg : Bool)
  deriving DecidableEq

/-- The value is one an IEEE 754 double holds: `mant < 2^53` and `-1074 ≤ exp ≤ 971`. -/
def Float64.representable : Float64 → Bool
  | .finite _ mant exp => decide (mant < 2 ^ 53 ∧ -1074 ≤ exp ∧ exp ≤ 971)
  | .inf _ => true
  | .nan _ => true

/-- The rational value of a finite float; 0 for the infinities and NaN. -/
def Float64.toRat : Float64 → ℚ
  | .finite neg mant exp => (if neg then -1 else 1) * (mant : ℚ) * (2 : ℚ) ^ exp
  | .inf _ => 0
  | .nan _ => 0

/-- Go `math.Signbit`. -/
def math.Signbit : Float64 → Bool
  | .finite neg _ _ => neg
  | .inf neg => neg
  | .nan neg => neg

/-- Go `math.Abs`: clears the sign bit. -/
def math.Abs : Float64 → Float64
  | .finite _ mant exp => .finite false mant exp
  | .inf _ => .inf false
  | .nan _ => .nan false

/-- Go `math.Modf`: integer and fractional part, both with the sign of the argument;
`Modf(±Inf) = ±Inf, NaN` and `Modf(NaN) = NaN, NaN`. -/
def math.Modf : Float64 → Float64 × Float64
  | .finite neg mant exp =>
    if 0 ≤ exp then (.finite neg mant exp, .finite neg 0 0)
    else (.finite neg (mant / 2 ^ (-exp).toNat) 0, .finite neg (mant % 2 ^ (-exp).toNat) exp)
  | .inf neg => (.inf neg, .nan false)
  | .nan neg => (.nan neg, .nan neg)

/-- The quotient `n / d` rounded to the nearest integer, ties to even. -/
def roundHalfEven (n d : Nat) : Nat :=
  if 2 * (n % d) > d then n / d + 1
  else if 2 * (n % d) = d then (if (n / d) % 2 = 1 then n / d + 1 else n / d)
  else n / d

/-- The `prec` decimal digits of `n`, most significant first, with leading zeros. -/
def fracDigits (prec n : Nat) : String :=
  String.mk ((List.range prec).map (fun j => Nat.digitChar (n / 10 ^ (prec - 1 - j) % 10)))

/-- Go `fmt.Sprintf("%.*f", prec, x)` for `prec ≥ 0`. -/
def fmtFloat (prec : Nat) : Float64 → String
  | .finite neg mant exp =>
    let n := if 0 ≤ exp then mant * 2 ^ exp.toNat * 10 ^ prec else mant * 10 ^ prec
    let d := if 0 ≤ exp then 1 else 2 ^ (-exp).toNat
    let q := roundHalfEven n d
    (if neg then "-" else "") ++ Nat.repr (q / 10 ^ prec) ++
      (if prec = 0 then "" else "." ++ fracDigits prec (q % 10 ^ prec))
  | .inf neg => if neg then "-Inf" else "+Inf"
  | .nan _ => "NaN"

/-- Go `s[i:]`; `none` when `i` is out of range. -/
def sliceFrom (s : String) (i : Int) : Option String :=
  if 0 ≤ i ∧ i ≤ (len s : Int) then some (String.mk (s.data.drop i.toNat)) else none

/-- Go `strings.HasSuffix`. -/
def HasSuffix (s suffix : String) : Bool := suffix.data.isSuffixOf s.data

/-- Go `strings.TrimSuffix`. -/
def TrimSuffix (s suffix : String) : String :=
  if HasSuffix s suffix then String.mk (s.data.take (s.data.length - suffix.data.length)) else s

/-- Go `strings.Join`. -/
def Join (elems : List String) (sep : String) : String := sep.intercalate elems

/-! ## currency.go: metadata and formatting -/

/-- Go `type currency struct`. -/
structure currency where
  IsoNumeric : Int
  Name : String
  Symbol : String
  SymbolFirst : Bool
  AlternateSymbols : List String
  ThousandsSeparator : String
  DecimalMark : String
  SubUnit : String
  SubUnitToUnit : Int
  SubUnitPrecision : Int
  HTMLEntity : String
  deriving DecidableEq

/-- The map currencies of currency.go as an association list, in source order (Go rejects
duplicate literal keys, so the first match is the only match). -/
def currencies : List (String × currency) := [
  ("AED", currency.mk 784 "United Arab Emirates Dirham" "د.إ" true ["DH", "Dhs"] "," "." "Fils" 100 2 ""),
  ("AFN", currency.mk 971 "Afghan Afghani" "؋" false ["Af", "Afs"] "," "." "Pul" 100 2 ""),
  ("ALL", currency.mk 8 "Albanian Lek" "L" false ["Lek"] "," "." "Qintar" 100 2 ""),
  ("AMD", currency.mk 51 "Armenian Dram" "դր." false ["dram"] "," "." "Luma" 100 2 ""),
  ("ANG", currency.mk 532 "Netherlands Antillean Gulden" "ƒ" true ["NAƒ", "NAf", "f"] "." "," "Cent" 100 2 "&#x0192;"),
  ("AOA", currency.mk 973 "Angolan Kwanza" "Kz" false [] "," "." "Cêntimo" 100 2 ""),
  ("ARS", currency.mk 32 "Argentine Peso" "$" true ["$m/n", "m$n"] "." "," "Centavo" 100 2 "&#x20B1;"),
  ("AUD", currency.mk 36 "Australian Dollar" "$" true ["A$"] "," "." "Cent" 100 2 "$"),
  ("AWG", currency.mk 533 "Aruban Florin" "ƒ" false ["Afl"] "," "." "Cent" 100 2 "&#x0192;"),
  ("AZN", currency.mk 944 "Azerbaijani Manat" "₼" true ["m", "man"] "," "." "Qəpik" 100 2 ""),
  ("BAM", currency.mk 977 "Bosnia and Herzegovina Convertible Mark" "КМ" true ["KM"] "," "." "Fening" 100 2 ""),
  ("BBD", currency.mk 52 "Barbadian Dollar" "$" false ["Bds$"] "," "." "Cent" 100 2 "$"),
  ("BDT", currency.mk 50 "Bangladeshi Taka" "৳" true ["Tk"] "," "." "Paisa" 100 2 ""),
  ("BGN", currency.mk 975 "Bulgarian Lev" "лв" false ["lev", "leva", "лев", "лева"] "," "." "Stotinka" 100 2 ""),
  ("BHD", currency.mk 48 "Bahraini Dinar" "ب.د" true ["BD"] "," "." "Fils" 1000 2 ""),
  ("BIF", currency.mk 108 "Burundian Franc" "Fr" false ["FBu"] "," "." "Centime" 100 2 ""),
  ("BMD", currency.mk 60 "Bermudian Dollar" "$" true ["BD$"] "," "." "Cent" 100 2 "$"),
  ("BND", currency.mk 96 "Brunei Dollar" "$" true ["B$"] "," "." "Sen" 100 2 "$"),
  ("BOB", currency.mk 68 "Bolivian Boliviano" "Bs." true ["Bs"] "," "." "Centavo" 100 2 ""),
  ("BRL", currency.mk 986 "Brazilian Real" "R$" true [] "." "," "Centavo" 100 2 "R$"),
  ("BSD", currency.mk 44 "Bahamian Dollar" "$" true ["B$"] "," "." "Cent" 100 2 "$"),
  ("BTC", currency.mk 0 "Bitcoin" "B⃦" true [] "," "." "Satoshi" 100000000 8 ""),
  ("BTN", currency.mk 64 "Bhutanese Ngultrum" "Nu." false ["Nu"] "," "." "Chertrum" 100 2 ""),
  ("BWP", currency.mk 72 "Botswana Pula" "P" true [] "," "." "Thebe" 100 2 ""),
  ("BYR", currency.mk 974 "Belarusian Ruble" "Br" false [""] "," "." "Kapyeyka" 100 2 ""),
  ("BZD", currency.mk 84 "Belize Dollar" "$" true ["BZ$"] "," "." "Cent" 100 2 "$"),
  ("CAD", currency.mk 124 "Canadian Dollar" "$" true ["C$", "CAD$"] "," "." "Cent" 100 2 "$"),
  ("CDF", currency.mk 976 "Congolese Franc" "Fr" false ["FC"] "," "." "Centime" 100 2 ""),
  ("CHF", currency.mk 756 "Swiss Franc" "Fr" true ["SFr", "CHF"] "," "." "Rappen" 100 2 ""),
  ("CLF", currency.mk 990 "Unidad de Fomento" "UF" true [] "." "," "Peso" 1 0 "&#x20B1;"),
  ("CLP", currency.mk 152 "Chilean Peso" "$" true [] "." "," "Peso" 100 2 "&#36;"),
  ("CNY", currency.mk 156 "Chinese Renminbi Yuan" "¥" true ["CN¥", "元", "CN元"] "," "." "Fen" 100 2 "￥"),
  ("COP", currency.mk 170 "Colombian Peso" "$" true ["COL$"] "." "," "Centavo" 100 2 "&#x20B1;"),
  ("CRC", currency.mk 188 "Costa Rican Colón" "₡" true ["¢"] "." "," "Céntimo" 100 2 "&#x20A1;"),
  ("CUC", currency.mk 931 "Cuban Convertible Peso" "$" false ["CUC$"] "," "." "Centavo" 100 2 ""),
  ("CUP", currency.mk 192 "Cuban Peso" "$" true ["$MN"] "," "." "Centavo" 100 2 "&#x20B1;"),
  ("CVE", currency.mk 132 "Cape Verdean Escudo" "$" false ["Esc"] "," "." "Centavo" 100 2 ""),
  ("CZK", currency.mk 203 "Czech Koruna" "Kč" false [] "." "," "Haléř" 100 2 ""),
  ("DJF", currency.mk 262 "Djiboutian Franc" "Fdj" false [] "," "." "Centime" 100 2 ""),
  ("DKK", currency.mk 208 "Danish Krone" "kr" false [",-"] "." "," "Øre" 100 2 ""),
  ("DOP", currency.mk 214 "Dominican Peso" "$" true ["RD$"] "," "." "Centavo" 100 2 "&#x20B1;"),
  ("DZD", currency.mk 12 "Algerian Dinar" "د.ج" false ["DA"] "," "." "Centime" 100 2 ""),
  ("EEK", currency.mk 233 "Estonian Kroon" "KR" false [] "," "." "Sent" 100 2 ""),
  ("EGP", currency.mk 818 "Egyptian Pound" "ج.م" true ["LE", "E£", "L.E."] "," "." "Piastre" 100 2 "&#x00A3;"),
  ("ERN", currency.mk 232 "Eritrean Nakfa" "Nfk" false [] "," "." "Cent" 100 2 ""),
  ("ETB", currency.mk 230 "Ethiopian Birr" "Br" false [] "," "." "Santim" 100 2 ""),
  ("EUR", currency.mk 978 "Euro" "€" false [] "." "," "Cent" 100 2 "&#x20AC;"),
  ("FJD", currency.mk 242 "Fijian Dollar" "$" false ["FJ$"] "," "." "Cent" 100 2 "$"),
  ("FKP", currency.mk 238 "Falkland Pound" "£" false ["FK£"] "," "." "Penny" 100 2 "&#x00A3;"),
  ("GBP", currency.mk 826 "British Pound" "£" true [] "," "." "Penny" 100 2 "&#x00A3;"),
  ("GEL", currency.mk 981 "Georgian Lari" "ლ" false ["lari"] "," "." "Tetri" 100 2 ""),
  ("GHS", currency.mk 936 "Ghanaian Cedi" "₵" true ["GH¢", "GH₵"] "," "." "Pesewa" 100 2 "&#x20B5;"),
  ("GIP", currency.mk 292 "Gibraltar Pound" "£" true [] "," "." "Penny" 100 2 "&#x00A3;"),
  ("GMD", currency.mk 270 "Gambian Dalasi" "D" false [] "," "." "Butut" 100 2 ""),
  ("GNF", currency.mk 324 "Guinean Franc" "Fr" false ["FG", "GFr"] "," "." "Centime" 100 2 ""),
  ("GTQ", currency.mk 320 "Guatemalan Quetzal" "Q" true [] "," "." "Centavo" 100 2 ""),
  ("GYD", currency.mk 328 "Guyanese Dollar" "$" false ["G$"] "," "." "Cent" 100 2 "$"),
  ("HKD", currency.mk 344 "Hong Kong Dollar" "$" true ["HK$"] "," "." "Cent" 100 2 "$"),
  ("HNL", currency.mk 340 "Honduran Lempira" "L" true [] "," "." "Centavo" 100 2 ""),
  ("HRK", currency.mk 191 "Croatian Kuna" "kn" true [] "." "," "Lipa" 100 2 ""),
  ("HTG", currency.mk 332 "Haitian Gourde" "G" false [] "," "." "Centime" 100 2 ""),
  ("HUF", currency.mk 348 "Hungarian Forint" "Ft" false [] "." "," "Fillér" 100 2 ""),
  ("IDR", currency.mk 360 "Indonesian Rupiah" "Rp" true [] "." "," "Sen" 100 2 ""),
  ("ILS", currency.mk 376 "Israeli New Sheqel" "₪" true ["ש״ח", "NIS"] "," "." "Agora" 100 2 "&#x20AA;"),
  ("INR", currency.mk 356 "Indian Rupee" "₹" true ["Rs", "৳", "૱", "௹", "रु", "₨"] "," "." "Paisa" 100 2 "&#x20b9;"),
  ("IQD", currency.mk 368 "Iraqi Dinar" "ع.د" false [] "," "." "Fils" 1000 3 ""),
  ("IRR", currency.mk 364 "Iranian Rial" "﷼" true [] "," "." "Dinar" 100 2 "&#xFDFC;"),
  ("ISK", currency.mk 352 "Icelandic Króna" "kr" true ["Íkr"] "." "," "Eyrir" 100 2 ""),
  ("JEP", currency.mk 0 "Jersey Pound" "£" true [] "," "." "Penny" 100 2 "&#x00A3;"),
  ("JMD", currency.mk 388 "Jamaican Dollar" "$" true ["J$"] "," "." "Cent" 100 2 "$"),
  ("JOD", currency.mk 400 "Jordanian Dinar" "د.ا" true ["JD"] "," "." "Piastre" 100 2 ""),
  ("JPY", currency.mk 392 "Japanese Yen" "¥" true ["円", "圓"] "," "." "" 1 0 "&#x00A5;"),
  ("KES", currency.mk 404 "Kenyan Shilling" "KSh" true ["Sh"] "," "." "Cent" 100 2 ""),
  ("KGS", currency.mk 417 "Kyrgyzstani Som" "som" false ["сом"] "," "." "Tyiyn" 100 2 ""),
  ("KHR", currency.mk 116 "Cambodian Riel" "៛" false [] "," "." "Sen" 100 2 "&#x17DB;"),
  ("KMF", currency.mk 174 "Comorian Franc" "Fr" false ["CF"] "," "." "Centime" 100 2 ""),
  ("KPW", currency.mk 408 "North Korean Won" "₩" false [] "," "." "Chŏn" 100 2 "&#x20A9;"),
  ("KRW", currency.mk 410 "South Korean Won" "₩" true [] "," "." "" 100 2 "&#x20A9;"),
  ("KWD", currency.mk 414 "Kuwaiti Dinar" "د.ك" true ["K.D."] "," "." "Fils" 1000 3 ""),
  ("KYD", currency.mk 136 "Cayman Islands Dollar" "$" true ["CI$"] "," "." "Cent" 100 2 "$"),
  ("KZT", currency.mk 398 "Kazakhstani Tenge" "〒" false [] "," "." "Tiyn" 100 2 ""),
  ("LAK", currency.mk 418 "Lao Kip" "₭" false ["₭N"] "," "." "Att" 100 2 "&#x20AD;"),
  ("LBP", currency.mk 422 "Lebanese Pound" "ل.ل" true ["£", "L£"] "," "." "Piastre" 100 2 "&#x00A3;"),
  ("LKR", currency.mk 144 "Sri Lankan Rupee" "₨" false ["රු", "ரூ", "SLRs", "/\x2d"] "," "." "Cent" 100 2 "&#x0BF9;"),
  ("LRD", currency.mk 430 "Liberian Dollar" "$" false ["L$"] "," "." "Cent" 100 2 "$"),
  ("LSL", currency.mk 426 "Lesotho Loti" "L" false ["M"] "," "." "Sente" 100 2 ""),
  ("LTL", currency.mk 440 "Lithuanian Litas" "Lt" false [] "," "." "Centas" 100 2 ""),
  ("LVL", currency.mk 428 "Latvian Lats" "Ls" true [] "," "." "Santīms" 100 2 ""),
  ("LYD", currency.mk 434 "Libyan Dinar" "ل.د" false ["LD"] "," "." "Dirham" 1000 3 ""),
  ("MAD", currency.mk 504 "Moroccan Dirham" "د.م." false [] "," "." "Centime" 100 2 ""),
  ("MDL", currency.mk 498 "Moldovan Leu" "L" false ["lei"] "," "." "Ban" 100 2 ""),
  ("MGA", currency.mk 969 "Malagasy Ariary" "Ar" true [] "," "." "Iraimbilanja" 5 2 ""),
  ("MKD", currency.mk 807 "Macedonian Denar" "ден" false [] "," "." "Deni" 100 2 ""),
  ("MMK", currency.mk 104 "Myanmar Kyat" "K" false [] "," "." "Pya" 100 2 ""),
  ("MNT", currency.mk 496 "Mongolian Tögrög" "₮" false [] "," "." "Möngö" 100 2 "&#x20AE;"),
  ("MOP", currency.mk 446 "Macanese Pataca" "P" false ["MOP$"] "," "." "Avo" 100 2 ""),
  ("MRO", currency.mk 478 "Mauritanian Ouguiya" "UM" false [] "," "." "Khoums" 5 2 ""),
  ("MTL", currency.mk 470 "Maltese Lira" "₤" true ["Lm"] "," "." "Cent" 100 2 "&#x00A3;"),
  ("MUR", currency.mk 480 "Mauritian Rupee" "₨" true [] "," "." "Cent" 100 2 "&#x20A8;"),
  ("MVR", currency.mk 462 "Maldivian Rufiyaa" "MVR" false ["MRF", "Rf", "/\x2d", "ރ"] "," "." "Laari" 100 2 ""),
  ("MWK", currency.mk 454 "Malawian Kwacha" "MK" false [] "," "." "Tambala" 100 2 ""),
  ("MXN", currency.mk 484 "Mexican Peso" "$" true ["MEX$"] "," "." "Centavo" 100 2 "$"),
  ("MYR", currency.mk 458 "Malaysian Ringgit" "RM" true [] "," "." "Sen" 100 2 ""),
  ("MZN", currency.mk 943 "Mozambican Metical" "MTn" true ["MZN"] "." "," "Centavo" 100 2 ""),
  ("NAD", currency.mk 516 "Namibian Dollar" "$" false ["N$"] "," "." "Cent" 100 2 "$"),
  ("NGN", currency.mk 566 "Nigerian Naira" "₦" true [] "," "." "Kobo" 100 2 "&#x20A6;"),
  ("NIO", currency.mk 558 "Nicaraguan Córdoba" "C$" false [] "," "." "Centavo" 100 2 ""),
  ("NOK", currency.mk 578 "Norwegian Krone" "kr" false [",-"] "." "," "Øre" 100 2 "kr"),
  ("NPR", currency.mk 524 "Nepalese Rupee" "₨" true ["Rs", "रू"] "," "." "Paisa" 100 2 "&#x20A8;"),
  ("NZD", currency.mk 554 "New Zealand Dollar" "$" true ["NZ$"] "," "." "Cent" 100 2 "$"),
  ("OMR", currency.mk 512 "Omani Rial" "ر.ع." true [] "," "." "Baisa" 1000 3 "&#xFDFC;"),
  ("PAB", currency.mk 590 "Panamanian Balboa" "B/." false [] "," "." "Centésimo" 100 2 ""),
  ("PEN", currency.mk 604 "Peruvian Nuevo Sol" "S/." true [] "," "." "Céntimo" 100 2 "S/."),
  ("PGK", currency.mk 598 "Papua New Guinean Kina" "K" false [] "," "." "Toea" 100 2 ""),
  ("PHP", currency.mk 608 "Philippine Peso" "₱" true ["PHP", "PhP", "P"] "," "." "Centavo" 100 2 "&#x20B1;"),
  ("PKR", currency.mk 586 "Pakistani Rupee" "₨" true ["Rs"] "," "." "Paisa" 100 2 "&#x20A8;"),
  ("PLN", currency.mk 985 "Polish Złoty" "zł" false [] " " "," "Grosz" 100 2 "&#322;"),
  ("PYG", currency.mk 600 "Paraguayan Guaraní" "₲" true [] "," "." "Céntimo" 100 2 "&#x20B2;"),
  ("QAR", currency.mk 634 "Qatari Riyal" "ر.ق" false ["QR"] "," "." "Dirham" 100 2 "&#xFDFC;"),
  ("RON", currency.mk 946 "Romanian Leu" "Lei" true [] "." "," "Bani" 100 2 ""),
  ("RSD", currency.mk 941 "Serbian Dinar" "РСД" true ["RSD", "din", "дин"] "," "." "Para" 100 2 ""),
  ("RUB", currency.mk 643 "Russian Ruble" "₽" false ["руб.", "р."] "." "," "Kopeck" 100 2 "&#x20BD;"),
  ("RWF", currency.mk 646 "Rwandan Franc" "FRw" false ["RF", "R₣"] "," "." "Centime" 100 2 ""),
  ("SAR", currency.mk 682 "Saudi Riyal" "ر.س" true ["SR", "﷼"] "," "." "Hallallah" 100 2 "&#xFDFC;"),
  ("SBD", currency.mk 90 "Solomon Islands Dollar" "$" false ["SI$"] "," "." "Cent" 100 2 "$"),
  ("SCR", currency.mk 690 "Seychellois Rupee" "₨" false ["SRe", "SR"] "," "." "Cent" 100 2 "&#x20A8;"),
  ("SDG", currency.mk 938 "Sudanese Pound" "£" true [] "," "." "Piastre" 100 2 ""),
  ("SEK", currency.mk 752 "Swedish Krona" "kr" false [":-"] " " "," "Öre" 100 2 ""),
  ("SGD", currency.mk 702 "Singapore Dollar" "$" true ["S$"] "," "." "Cent" 100 2 "$"),
  ("SHP", currency.mk 654 "Saint Helenian Pound" "£" false [] "," "." "Penny" 100 2 "&#x00A3;"),
  ("SKK", currency.mk 703 "Slovak Koruna" "Sk" true [] "," "." "Halier" 100 2 ""),
  ("SLL", currency.mk 694 "Sierra Leonean Leone" "Le" false [] "," "." "Cent" 100 2 ""),
  ("SOS", currency.mk 706 "Somali Shilling" "Sh" false ["Sh.So"] "," "." "Cent" 100 2 ""),
  ("SRD", currency.mk 968 "Surinamese Dollar" "$" false [] "," "." "Cent" 100 2 ""),
  ("SSP", currency.mk 728 "South Sudanese Pound" "£" false [] "," "." "piaster" 100 2 "&#x00A3;"),
  ("STD", currency.mk 678 "São Tomé and Príncipe Dobra" "Db" false [] "," "." "Cêntimo" 100 2 ""),
  ("SVC", currency.mk 222 "Salvadoran Colón" "₡" true ["¢"] "," "." "Centavo" 100 2 "&#x20A1;"),
  ("SYP", currency.mk 760 "Syrian Pound" "£S" false ["£", "ل.س", "LS", "الليرة السورية"] "," "." "Piastre" 100 2 "&#x00A3;"),
  ("SZL", currency.mk 748 "Swazi Lilangeni" "L" true ["E"] "," "." "Cent" 100 2 ""),
  ("THB", currency.mk 764 "Thai Baht" "฿" true [] "," "." "Satang" 100 2 "&#x0E3F;"),
  ("TJS", currency.mk 972 "Tajikistani Somoni" "ЅМ" false [] "," "." "Diram" 100 2 ""),
  ("TMT", currency.mk 934 "Turkmenistani Manat" "T" false [] "," "." "Tenge" 100 2 ""),
  ("TND", currency.mk 788 "Tunisian Dinar" "د.ت" false ["TD", "DT"] "," "." "Millime" 1000 3 ""),
  ("TOP", currency.mk 776 "Tongan Paʻanga" "T$" true ["PT"] "," "." "Seniti" 100 2 ""),
  ("TRY", currency.mk 949 "Turkish Lira" "₺" false ["TL"] "." "," "kuruş" 100 2 ""),
  ("TTD", currency.mk 780 "Trinidad and Tobago Dollar" "$" false ["TT$"] "," "." "Cent" 100 2 "$"),
  ("TWD", currency.mk 901 "New Taiwan Dollar" "$" true ["NT$"] "," "." "Cent" 100 2 "$"),
  ("TZS", currency.mk 834 "Tanzanian Shilling" "Sh" true [] "," "." "Cent" 100 2 ""),
  ("UAH", currency.mk 980 "Ukrainian Hryvnia" "₴" false [] "," "." "Kopiyka" 100 2 "&#x20B4;"),
  ("UGX", currency.mk 800 "Ugandan Shilling" "USh" false [] "," "." "Cent" 100 2 ""),
  ("USD", currency.mk 840 "United States Dollar" "$" true ["US$"] "," "." "Cent" 100 2 "$"),
  ("UYU", currency.mk 858 "Uruguayan Peso" "$" true ["$U"] "." "," "Centésimo" 100 2 "&#x20B1;"),
  ("UZS", currency.mk 860 "Uzbekistani Som" "" false [] "," "." "Tiyin" 100 2 ""),
  ("VEF", currency.mk 937 "Venezuelan Bolívar" "Bs F" true ["Bs.F", "Bs"] "." "," "Céntimo" 100 2 ""),
  ("VND", currency.mk 704 "Vietnamese Đồng" "₫" true [] "." "," "Hào" 1 0 "&#x20AB;"),
  ("VUV", currency.mk 548 "Vanuatu Vatu" "Vt" true [] "," "." "" 1 0 ""),
  ("WST", currency.mk 882 "Samoan Tala" "T" false ["WS$", "SAT", "ST"] "," "." "Sene" 100 2 ""),
  ("XAF", currency.mk 950 "Central African Cfa Franc" "Fr" false ["FCFA"] "," "." "Centime" 100 2 ""),
  ("XAG", currency.mk 961 "Silver (Troy Ounce)" "oz t" false [] "," "." "oz" 1 0 ""),
  ("XAU", currency.mk 959 "Gold (Troy Ounce)" "oz t" false [] "," "." "oz" 1 0 ""),
  ("XCD", currency.mk 951 "East Caribbean Dollar" "$" true ["EC$"] "," "." "Cent" 100 2 "$"),
  ("XDR", currency.mk 960 "Special Drawing Rights" "SDR" false ["XDR"] "," "." "" 1 0 "$"),
  ("XOF", currency.mk 952 "West African Cfa Franc" "Fr" false ["CFA"] "," "." "Centime" 100 2 ""),
  ("XPF", currency.mk 953 "Cfp Franc" "Fr" false ["F"] "," "." "Centime" 100 2 ""),
  ("YER", currency.mk 886 "Yemeni Rial" "﷼" false [] "," "." "Fils" 100 2 "&#xFDFC;"),
  ("ZAR", currency.mk 710 "South African Rand" "R" true [] "," "." "Cent" 100 2 "&#x0052;"),
  ("ZMK", currency.mk 894 "Zambian Kwacha" "ZK" false [] "," "." "Ngwee" 100 2 ""),
  ("ZMW", currency.mk 967 "Zambian Kwacha" "ZK" false [] "," "." "Ngwee" 100 2 ""),
  ("ZWD", currency.mk 716 "Zimbabwean Dollar" "$" true ["Z$"] "," "." "Cent" 100 2 "$"),
  ("ZWL", currency.mk 932 "Zimbabwean Dollar" "$" true ["Z$"] "," "." "Cent" 100 2 "$"),
  ("ZWN", currency.mk 942 "Zimbabwean Dollar" "$" true ["Z$"] "," "." "Cent" 100 2 "$"),
  ("ZWR", currency.mk 935 "Zimbabwean Dollar" "$" true ["Z$"] "," "." "Cent" 100 2 "$")
]

/-- Go map index `cc, ok := currencies[k]`. -/
def currenciesGet (m : List (String × currency)) (k : String) : Option currency :=
  match m with
  | [] => none
  | (a, b) :: rest => if a = k then some b else currenciesGet rest k

/-- Go `Currency.Symbol`. -/
def Currency.Symbol (c : Currency) : String :=
  match currenciesGet currencies c with
  | some cc => cc.Symbol
  | none => c

/-- Go `type CurrencyOptions struct`. -/
structure CurrencyOptions where
  WithCents : Bool
  WithCurrency : Bool
  WithSymbol : Bool
  WithSymbolSpace : Bool
  WithThousandsSeparator : Bool
  deriving DecidableEq

/-- Go `NewCurrencyOptions`: the value of the struct it allocates. -/
def NewCurrencyOptions : CurrencyOptions :=
  ⟨true, false, true, false, true⟩

/-- Go `currency.addSymbol`. -/
def currency.addSymbol (c : currency) (result : String) (opts : CurrencyOptions) : String :=
  let space := if opts.WithSymbolSpace then " " else ""
  if c.SymbolFirst then c.Symbol ++ space ++ result else result ++ space ++ c.Symbol

/-- The loop `for i := chunks - 1; i >= 0; i--` of separateThousands from index `i` on, with
the current `value` and `result` slice; it returns the final `result`. -/
def separateLoop : Nat → String → List String → Option (List String)
  | 0, value, result => some (result.set 0 value)
  | i + 1, value, result =>
    match sliceFrom value ((len value : Int) - 3) with
    | none => none
    | some chunk => separateLoop i (TrimSuffix value chunk) (result.set (i + 1) chunk)

/-- Go `currency.separateThousands`; `math.Mod(float64(len(value)), 3) > 0` is
`len(value) % 3 > 0`. -/
def currency.separateThousands (c : currency) (value : String) : Option String :=
  let chunks := len value / 3
  if chunks = 0 then some value
  else
    let chunks := if len value % 3 > 0 then chunks + 1 else chunks
    let result := List.replicate chunks ""
    (separateLoop (chunks - 1) value result).map (fun r => Join r c.ThousandsSeparator)

/-- Go `currency.splitValue`. -/
def currency.splitValue (c : currency) (val : Float64) : Option (String × String) :=
  let i := (math.Modf val).1
  let f := (math.Modf val).2
  let integer := fmtFloat 0 i
  if 0 < c.SubUnitPrecision then
    match sliceFrom (fmtFloat c.SubUnitPrecision.toNat f) 2 with
    | none => none
    | some fractional => some (integer, fractional)
  else some (integer, "")

/-- The record Format builds when `currencies` has no entry for the code. -/
def fallbackCurrency (c : Currency) : currency :=
  ⟨0, c, c, false, [], ",", ".", "", 100, 2, ""⟩

/-- The record `cc` Format works with: the entry of `currencies`, or the synthetic one. -/
def Currency.metadata (c : Currency) : currency :=
  match currenciesGet currencies c with
  | some cc => cc
  | none => fallbackCurrency c

/-- Go `Currency.Format`; `opts = none` is the nil pointer, and the result `none` is a
panic. -/
def Currency.Format (c : Currency) (val : Float64) (opts : Option CurrencyOptions) :
    Option String :=
  let opts := match opts with
    | none => NewCurrencyOptions
    | some o => o
  let cc := c.metadata
  let sign := if math.Signbit val then "-" else ""
  match cc.splitValue (math.Abs val) with
  | none => none
  | some (integer, fractional) =>
    match (if opts.WithThousandsSeparator then cc.separateThousands integer else some integer) with
    | none => none
    | some result =>
      let result :=
        if opts.WithCents && cc.SubUnit != "" then sign ++ result ++ cc.DecimalMark ++ fractional
        else result
      let result := if opts.WithSymbol then cc.addSymbol result opts else result
      let result := if opts.WithCurrency then result ++ " " ++ c else result
      some result

/-! ## currency.go: option builders and Scan -/

/-- The `CurrencyOptions` structs allocated so far; a `*CurrencyOptions` is an index into
this list, and an index outside it is a nil or dangling pointer. -/
abbrev OptionsHeap := List CurrencyOptions

/-- Go `NewCurrencyOptions` as an allocation: the heap with one more struct, holding the
literal of the source, and the pointer to that struct. -/
def allocCurrencyOptions (h : OptionsHeap) : OptionsHeap × Nat :=
  (h ++ [NewCurrencyOptions], h.length)

/-- Go `(*CurrencyOptions).Cents`: `o.WithCents = f; return o`; `none` is the nil
dereference. -/
def CurrencyOptions.Cents (h : OptionsHeap) (o : Nat) (f : Bool) : Option (OptionsHeap × Nat) :=
  match h[o]? with
  | none => none
  | some s =>
    some (h.set o ⟨f, s.WithCurrency, s.WithSymbol, s.WithSymbolSpace,
      s.WithThousandsSeparator⟩, o)

/-- Go `(*CurrencyOptions).Currency`: `o.WithCurrency = f; return o`. -/
def CurrencyOptions.Currency (h : OptionsHeap) (o : Nat) (f : Bool) :
    Option (OptionsHeap × Nat) :=
  match h[o]? with
  | none => none
  | some s =>
    some (h.set o ⟨s.WithCents, f, s.WithSymbol, s.WithSymbolSpace,
      s.WithThousandsSeparator⟩, o)

/-- Go `(*CurrencyOptions).Symbol`: `o.WithSymbol = f; return o`. -/
def CurrencyOptions.Symbol (h : OptionsHeap) (o : Nat) (f : Bool) :
    Option (OptionsHeap × Nat) :=
  match h[o]? with
  | none => none
  | some s =>
    some (h.set o ⟨s.WithCents, s.WithCurrency, f, s.WithSymbolSpace,
      s.WithThousandsSeparator⟩, o)

/-- Go `(*CurrencyOptions).Space`: `o.WithSymbolSpace = f; return o`. -/
def CurrencyOptions.Space (h : OptionsHeap) (o : Nat) (f : Bool) : Option (OptionsHeap × Nat) :=
  match h[o]? with
  | none => none
  | some s =>
    some (h.set o ⟨s.WithCents, s.WithCurrency, s.WithSymbol, f,
      s.WithThousandsSeparator⟩, o)

/-- Go `(*CurrencyOptions).Separator`: `o.WithThousandsSeparator = f; return o`. -/
def CurrencyOptions.Separator (h : OptionsHeap) (o : Nat) (f : Bool) :
    Option (OptionsHeap × Nat) :=
  match h[o]? with
  | none => none
  | some s =>
    some (h.set o ⟨s.WithCents, s.WithCurrency, s.WithSymbol, s.WithSymbolSpace, f⟩, o)

/-- The `interface` value handed to Scan, by dynamic type: a string, a byte slice, or a
value of any other type (an integer, nil, ...) together with its `%v` rendering. -/
inductive ScanValue where
  | string (v : String)
  | bytes (v : String)
  | other (shown : String)

/-- Go `fmt.Sprintf("%v", value)`: a string prints as it is, a byte slice as the list of its
bytes in decimal. -/
def fmtValue : ScanValue → String
  | .string v => v
  | .bytes v =>
    "[" ++ " ".intercalate
      ((v.data.flatMap String.utf8EncodeChar).map (fun b => Nat.repr b.toNat)) ++ "]"
  | .other shown => shown

/-- Go `(*Currency).Scan`: the receiver after the call and the returned error. -/
def Currency.Scan (tbl : CaseTables) (r : Currency) (value : ScanValue) :
    Currency × Option String :=
  let r := match value with
    | .string v => ParseCurrency tbl v
    | .bytes v => ParseCurrency tbl v
    | .other _ => r
  if !r.IsValid then
    (r, some ("iso: invalid ISO currency code \x27" ++ fmtValue value ++ "\x27"))
  else (r, none)

/-- Go `(*Language).Scan`: the receiver after the call and the returned error. -/
def Language.Scan (tbl : CaseTables) (r : Language) (value : ScanValue) :
    Language × Option String :=
  let r := match value with
    | .string v => ParseLanguage tbl v
    | .bytes v => ParseLanguage tbl v
    | .other _ => r
  if !r.IsValid then
    (r, some ("iso: invalid ISO 639-1/2BT:2002 language code \x27" ++ fmtValue value ++ "\x27"))
  else (r, none)

/-! ## region.go

`Country`, `ParseCountry` and `Country.IsValid` are declared in country.go, which is not among
the sources; region.go converts strings to `Country`, so it is a string type, and the two
functions are parameters of everything that calls them.
-/

/-- Go `type Country string`. -/
abbrev Country := String

/-- The country validator of country.go: `ParseCountry` and `Country.IsValid`. -/
structure CountryValidator where
  ParseCountry : String → Country
  IsValid : Country → Bool

/-- A validator for evaluating examples: it accepts "US" in any ASCII case and nothing
else. -/
def sampleCountries : CountryValidator :=
  ⟨fun s => if ToUpper asciiTables s = "US" then "US" else "", fun c => c != ""⟩

/-- Go `strings.Index(s, sep)` with `s[:m]` and `s[m+1:]` for a separator of one ASCII byte:
the parts before and after the first separator, `none` when there is no separator. -/
def cutFirst (sep : Char) : List Char → Option (List Char × List Char)
  | [] => none
  | c :: cs =>
    if c = sep then some ([], cs)
    else
      match cutFirst sep cs with
      | none => none
      | some (a, b) => some (c :: a, b)

/-- Go `strings.SplitN(s, sep, 2)` for a separator of one ASCII byte. -/
def SplitN2 (s : String) (sep : Char) : List String :=
  match cutFirst sep s.data with
  | none => [s]
  | some (a, b) => [String.mk a, String.mk b]

/-- Go `type Region string`. -/
abbrev Region := String

/-- Go `RegionUndefined`. -/
def RegionUndefined : Region := ""

/-- Go `Region.IsValid`. -/
def Region.IsValid (r : Region) : Bool := r != RegionUndefined

/-- Go `ParseRegion`. -/
def ParseRegion (cv : CountryValidator) (c : String) : Region :=
  if c = "" then RegionUndefined
  else
    match SplitN2 c '-' with
    | [ff0, _] =>
      if !cv.IsValid (cv.ParseCountry ff0) then RegionUndefined else c
    | _ => RegionUndefined

/-- Go `Region.MarshalText`: the bytes of the code and a nil error. -/
def Region.MarshalText (r : Region) : String × Option String := (r, none)

/-- Go `(*Region).UnmarshalText`: the receiver after the call and the returned error. -/
def Region.UnmarshalText (cv : CountryValidator) (r : Region) (data : String) :
    Region × Option String :=
  let rr := ParseRegion cv data
  if !rr.IsValid then
    (r, some ("iso: invalid ISO region code \x27" ++ data ++ "\x27"))
  else
    (rr, none)

/-- Go `(*Region).Scan`: the receiver after the call and the returned error. -/
def Region.Scan (cv : CountryValidator) (r : Region) (value : ScanValue) :
    Region × Option String :=
  let r := match value with
    | .string v => ParseRegion cv v
    | .bytes v => ParseRegion cv v
    | .other _ => r
  if !r.IsValid then
    (r, some ("iso: invalid ISO region code \x27" ++ fmtValue value ++ "\x27"))
  else (r, none)

/-- Go `Region.Country`; `ff[0]` exists because SplitN returns at least one part. -/
def Region.Country (r : Region) : Country :=
  if !r.IsValid then ""
  else
    match SplitN2 r '-' with
    | ff0 :: _ => ff0
    | [] => ""

/-! ## Reference grouping

The grouping that separateThousands is compared with, written after the specification:
chunks of exactly three characters cut from the right, one leading chunk of one to three
characters, the chunks in their original order joined by the separator.
-/

/-- Reference grouping: `k` chunks of three characters cut from the right of `v`, in their
original order, after the leading rest. -/
def cutFromRight : Nat → List Char → List (List Char)
  | 0, v => [v]
  | k + 1, v => cutFromRight k (v.take (v.length - 3)) ++ [v.drop (v.length - 3)]

/-- Reference grouping: `v` unchanged when it has at most three characters, otherwise its
`ceil(len / 3)` chunks joined by `sep`. -/
def groupReference (v sep : String) : String :=
  if v.data.length ≤ 3 then v
  else Join ((cutFromRight ((v.data.length + 2) / 3 - 1) v.data).map String.mk) sep

/-! ## Loops as membership tests -/

theorem rangeFind_eq (c : String) (xs : List String) :
    rangeFind c xs = if c ∈ xs then some c else none := by
  induction xs with
  | nil => simp [rangeFind]
  | cons x xs ih =>
    by_cases h : x = c
    · simp [rangeFind, h]
    · have h' : ¬ c = x := fun e => h e.symm
      simp [rangeFind, h, h', ih]

theorem rangeFindMapped_eq (m : List (String × String)) (l : String) (xs : List String) :
    rangeFindMapped m l xs = if l ∈ xs then mapGet m l else none := by
  induction xs with
  | nil => simp [rangeFindMapped]
  | cons x xs ih =>
    by_cases h : x = l
    · subst h
      cases hm : mapGet m x with
      | none => simp [rangeFindMapped, hm, ih]
      | some v => simp [rangeFindMapped, hm]
    · have h' : ¬ l = x := fun e => h e.symm
      simp [rangeFindMapped, h, h', ih]

theorem mapGet_mem {m : List (String × String)} {k v : String} (h : mapGet m k = some v) :
    (k, v) ∈ m := by
  induction m with
  | nil => simp [mapGet] at h
  | cons p rest ih =>
    obtain ⟨a, b⟩ := p
    by_cases e : a = k
    · simp [mapGet, e] at h
      simp [e, h]
    · simp [mapGet, e] at h
      exact List.mem_cons_of_mem _ (ih h)

/-! ## Case mapping on ASCII input does not depend on the Unicode tables -/

theorem ToUpper_ascii (tbl : CaseTables) {s : String} (h : asciiOnly s = true) :
    ToUpper tbl s = ToUpper asciiTables s := by
  unfold ToUpper
  congr 1
  apply List.map_congr_left
  intro c hc
  have hlt : c.toNat < 128 := by
    have := List.all_eq_true.mp h c hc
    simpa using this
  simp [unicodeToUpper, hlt]

theorem ToLower_ascii (tbl : CaseTables) {s : String} (h : asciiOnly s = true) :
    ToLower tbl s = ToLower asciiTables s := by
  unfold ToLower
  congr 1
  apply List.map_congr_left
  intro c hc
  have hlt : c.toNat < 128 := by
    have := List.all_eq_true.mp h c hc
    simpa using this
  simp [unicodeToLower, hlt]

theorem ParseCurrency_ascii (tbl : CaseTables) {s : String} (h : asciiOnly s = true) :
    ParseCurrency tbl s = ParseCurrency asciiTables s := by
  simp only [ParseCurrency, ToUpper_ascii tbl h]

theorem ParseLanguage_ascii (tbl : CaseTables) {s : String} (h : asciiOnly s = true) :
    ParseLanguage tbl s = ParseLanguage asciiTables s := by
  simp only [ParseLanguage, ToLower_ascii tbl h]

/-! ## Facts read off the code tables -/

theorem currency_codes_facts : ∀ x ∈ ISO_4217_CURRENCY_CODES,
    asciiOnly x = true ∧ len x = 3 ∧ x ≠ CurrencyUndefined ∧ ToUpper asciiTables x = x ∧
    asciiOnly (ToLower asciiTables x) = true ∧
    ToUpper asciiTables (ToLower asciiTables x) = x := by
  decide!

theorem lang1_codes_facts : ∀ c ∈ ISO_639_1_2002_CODES,
    asciiOnly c = true ∧ len c = 2 ∧ ToLower asciiTables c = c ∧
    (mapGet ISO_639_1_TO_2T_MAP c).isSome = true := by
  decide!

theorem lang2T_codes_facts : ∀ t ∈ ISO_639_2T_1998_CODES,
    asciiOnly t = true ∧ len t = 3 ∧ ToLower asciiTables t = t ∧ t ≠ LanguageUndefined := by
  decide!

theorem lang2B_map_facts : ∀ p ∈ ISO_639_2B_TO_2T_MAP,
    asciiOnly p.1 = true ∧ len p.1 = 3 ∧ ToLower asciiTables p.1 = p.1 ∧
    p.1 ∉ ISO_639_2T_1998_CODES ∧ p.1 ∈ ISO_639_2B_1998_CODES ∧
    mapGet ISO_639_2B_TO_2T_MAP p.1 = some p.2 := by
  decide!

theorem lang1_map_values : ∀ p ∈ ISO_639_1_TO_2T_MAP, p.2 ∈ ISO_639_2T_1998_CODES := by
  decide!

theorem lang2B_map_values : ∀ p ∈ ISO_639_2B_TO_2T_MAP, p.2 ∈ ISO_639_2T_1998_CODES := by
  decide!

theorem Currency_IsValid_iff (r : Currency) : r.IsValid = true ↔ r ≠ CurrencyUndefined := by
  simp [Currency.IsValid]

theorem Language_IsValid_iff (r : Language) : r.IsValid = true ↔ r ≠ LanguageUndefined := by
  simp [Language.IsValid]

/-! ## ParseCurrency -/

theorem ParseCurrency_eq (tbl : CaseTables) (s : String) :
    ParseCurrency tbl s =
      if ToUpper tbl s ∈ ISO_4217_CURRENCY_CODES then ToUpper tbl s else CurrencyUndefined := by
  unfold ParseCurrency
  simp only [rangeFind_eq]
  split_ifs <;> rfl

theorem ParseCurrency_mem_or_undefined (tbl : CaseTables) (s : String) :
    ParseCurrency tbl s = CurrencyUndefined ∨ ParseCurrency tbl s ∈ ISO_4217_CURRENCY_CODES := by
  rw [ParseCurrency_eq]
  split_ifs with h
  · exact Or.inr h
  · exact Or.inl rfl

theorem ParseCurrency_of_code (tbl : CaseTables) {c : String}
    (h : c ∈ ISO_4217_CURRENCY_CODES) : ParseCurrency tbl c = c := by
  obtain ⟨ha, -, -, hu, -, -⟩ := currency_codes_facts c h
  rw [ParseCurrency_eq, ToUpper_ascii tbl ha, hu, if_pos h]

/-! ## ParseLanguage -/

theorem ParseLanguage_eq (tbl : CaseTables) (s : String) :
    ParseLanguage tbl s =
      if len (ToLower tbl s) = 2 then
        if ToLower tbl s ∈ ISO_639_1_2002_CODES then
          (mapGet ISO_639_1_TO_2T_MAP (ToLower tbl s)).getD LanguageUndefined
        else LanguageUndefined
      else if len (ToLower tbl s) = 3 then
        if ToLower tbl s ∈ ISO_639_2T_1998_CODES then ToLower tbl s
        else if ToLower tbl s ∈ ISO_639_2B_1998_CODES then
          (mapGet ISO_639_2B_TO_2T_MAP (ToLower tbl s)).getD LanguageUndefined
        else LanguageUndefined
      else LanguageUndefined := by
  unfold ParseLanguage
  simp only [rangeFind_eq, rangeFindMapped_eq]
  split_ifs <;> first | rfl | (cases mapGet _ (ToLower tbl s) <;> rfl)

theorem mapGet_getD_mem {m : List (String × String)} {T : List String}
    (hT : ∀ p ∈ m, p.2 ∈ T) (k : String) :
    (mapGet m k).getD LanguageUndefined = LanguageUndefined ∨
      (mapGet m k).getD LanguageUndefined ∈ T := by
  cases h : mapGet m k with
  | none => exact Or.inl rfl
  | some v => exact Or.inr (hT _ (mapGet_mem h))

theorem ParseLanguage_mem_or_undefined (tbl : CaseTables) (s : String) :
    ParseLanguage tbl s = LanguageUndefined ∨ ParseLanguage tbl s ∈ ISO_639_2T_1998_CODES := by
  rw [ParseLanguage_eq]
  split_ifs with h2 h1 h3 hT hB
  · exact mapGet_getD_mem lang1_map_values _
  · exact Or.inl rfl
  · exact Or.inr hT
  · exact mapGet_getD_mem lang2B_map_values _
  · exact Or.inl rfl
  · exact Or.inl rfl

theorem ParseLanguage_of_T (tbl : CaseTables) {t : String}
    (h : t ∈ ISO_639_2T_1998_CODES) : ParseLanguage tbl t = t := by
  obtain ⟨ha, hl, ht, -⟩ := lang2T_codes_facts t h
  have hlow : ToLower tbl t = t := by rw [ToLower_ascii tbl ha, ht]
  rw [ParseLanguage_eq, hlow, hl]
  simp [h]

theorem ParseLanguage_of_B (tbl : CaseTables) {p : String × String}
    (h : p ∈ ISO_639_2B_TO_2T_MAP) : ParseLanguage tbl p.1 = p.2 := by
  obtain ⟨ha, hl, ht, hnT, hB, hm⟩ := lang2B_map_facts p h
  have hlow : ToLower tbl p.1 = p.1 := by rw [ToLower_ascii tbl ha, ht]
  rw [ParseLanguage_eq, hlow, hl]
  simp [hnT, hB, hm]

theorem ParseLanguage_of_1 (tbl : CaseTables) {c : String}
    (h : c ∈ ISO_639_1_2002_CODES) :
    mapGet ISO_639_1_TO_2T_MAP c = some (ParseLanguage tbl c) := by
  obtain ⟨ha, hl, ht, hm⟩ := lang1_codes_facts c h
  have hlow : ToLower tbl c = c := by rw [ToLower_ascii tbl ha, ht]
  rw [ParseLanguage_eq, hlow, hl]
  cases hv : mapGet ISO_639_1_TO_2T_MAP c with
  | none => simp [hv] at hm
  | some v => simp [h]

theorem T_codes_ne_undefined {t : String} (h : t ∈ ISO_639_2T_1998_CODES) :
    t ≠ LanguageUndefined := (lang2T_codes_facts t h).2.2.2

/-! ## Claims about ParseCurrency -/

/-- C1: when the upper-cased input is an entry of ISO_4217_CURRENCY_CODES, ParseCurrency
returns exactly that upper-cased code, the code is three bytes long, and IsValid of the
result is true. -/
theorem ParseCurrency_known (tbl : CaseTables) (s : String)
    (h : ToUpper tbl s ∈ ISO_4217_CURRENCY_CODES) :
    ParseCurrency tbl s = ToUpper tbl s ∧ len (ParseCurrency tbl s) = 3 ∧
      (ParseCurrency tbl s).IsValid = true := by
  have e : ParseCurrency tbl s = ToUpper tbl s := by rw [ParseCurrency_eq, if_pos h]
  obtain ⟨-, hl, hne, -⟩ := currency_codes_facts _ h
  refine ⟨e, ?_, ?_⟩
  · rw [e]; exact hl
  · rw [e]; exact (Currency_IsValid_iff _).mpr hne

theorem ParseCurrency_known_witness :
    ToUpper asciiTables "usd" ∈ ISO_4217_CURRENCY_CODES ∧
      (ParseCurrency asciiTables "usd" = ToUpper asciiTables "usd" ∧
        len (ParseCurrency asciiTables "usd") = 3 ∧
        (ParseCurrency asciiTables "usd").IsValid = true) :=
  ⟨by decide!, ParseCurrency_known asciiTables "usd" (by decide!)⟩

/-- C2: when the upper-cased input is not an entry of ISO_4217_CURRENCY_CODES, ParseCurrency
returns the undefined sentinel and IsValid of the result is false. -/
theorem ParseCurrency_unknown (tbl : CaseTables) (s : String)
    (h : ToUpper tbl s ∉ ISO_4217_CURRENCY_CODES) :
    ParseCurrency tbl s = CurrencyUndefined ∧ (ParseCurrency tbl s).IsValid = false := by
  have e : ParseCurrency tbl s = CurrencyUndefined := by rw [ParseCurrency_eq, if_neg h]
  refine ⟨e, ?_⟩
  rw [e]
  rfl

theorem ParseCurrency_unknown_witness :
    (ParseCurrency asciiTables " USD" = CurrencyUndefined ∧
        (ParseCurrency asciiTables " USD").IsValid = false) ∧
      (ParseCurrency asciiTables "usd " = CurrencyUndefined ∧
        (ParseCurrency asciiTables "usd ").IsValid = false) ∧
      (ParseCurrency asciiTables "US" = CurrencyUndefined ∧
        (ParseCurrency asciiTables "US").IsValid = false) ∧
      (ParseCurrency asciiTables "USDX" = CurrencyUndefined ∧
        (ParseCurrency asciiTables "USDX").IsValid = false) :=
  ⟨ParseCurrency_unknown asciiTables " USD" (by decide!),
   ParseCurrency_unknown asciiTables "usd " (by decide!),
   ParseCurrency_unknown asciiTables "US" (by decide!),
   ParseCurrency_unknown asciiTables "USDX" (by decide!)⟩

/-- C3: for every code c of ISO_4217_CURRENCY_CODES, parsing c and parsing the lower-cased c
give the same result, and the result of parsing c is valid. -/
theorem ParseCurrency_lowercase (tbl : CaseTables) (c : String)
    (h : c ∈ ISO_4217_CURRENCY_CODES) :
    ParseCurrency tbl c = ParseCurrency tbl (ToLower tbl c) ∧
      (ParseCurrency tbl c).IsValid = true := by
  obtain ⟨ha, -, hne, -, hla, hul⟩ := currency_codes_facts c h
  have e1 : ParseCurrency tbl c = c := ParseCurrency_of_code tbl h
  have e2 : ParseCurrency tbl (ToLower tbl c) = c := by
    rw [ToLower_ascii tbl ha, ParseCurrency_eq, ToUpper_ascii tbl hla, hul, if_pos h]
  refine ⟨by rw [e1, e2], ?_⟩
  rw [e1]
  exact (Currency_IsValid_iff _).mpr hne

theorem ParseCurrency_lowercase_witness :
    ToLower asciiTables "EUR" = "eur" ∧
      (ParseCurrency asciiTables "EUR" = ParseCurrency asciiTables (ToLower asciiTables "EUR") ∧
        (ParseCurrency asciiTables "EUR").IsValid = true) :=
  ⟨by decide, ParseCurrency_lowercase asciiTables "EUR" (by decide!)⟩

/-- C4: for every input s whose parse x is valid, MarshalText of x returns no error, and
UnmarshalText of the marshalled bytes returns no error and stores x in the receiver;
equivalently parsing the text of x gives x again. -/
theorem Currency_text_roundtrip (tbl : CaseTables) (s : String) (r0 : Currency)
    (h : (ParseCurrency tbl s).IsValid = true) :
    (ParseCurrency tbl s).MarshalText.2 = none ∧
      Currency.UnmarshalText tbl r0 (ParseCurrency tbl s).MarshalText.1 =
        (ParseCurrency tbl s, none) ∧
      ParseCurrency tbl (ParseCurrency tbl s) = ParseCurrency tbl s := by
  have hne := (Currency_IsValid_iff _).mp h
  have hmem : ParseCurrency tbl s ∈ ISO_4217_CURRENCY_CODES :=
    (ParseCurrency_mem_or_undefined tbl s).resolve_left hne
  have e : ParseCurrency tbl (ParseCurrency tbl s) = ParseCurrency tbl s :=
    ParseCurrency_of_code tbl hmem
  refine ⟨rfl, ?_, e⟩
  simp only [Currency.UnmarshalText, Currency.MarshalText, e, h]
  rfl

theorem Currency_text_roundtrip_witness :
    (ParseCurrency asciiTables "chf").IsValid = true ∧
      ((ParseCurrency asciiTables "chf").MarshalText.2 = none ∧
        Currency.UnmarshalText asciiTables "JPY" (ParseCurrency asciiTables "chf").MarshalText.1 =
          (ParseCurrency asciiTables "chf", none) ∧
        ParseCurrency asciiTables (ParseCurrency asciiTables "chf") =
          ParseCurrency asciiTables "chf") :=
  ⟨by decide!, Currency_text_roundtrip asciiTables "chf" "JPY" (by decide!)⟩

/-! ## Claims about ParseLanguage -/

/-- C5: for every input s whose parse x is valid, MarshalText of x returns no error, and
UnmarshalText of the marshalled bytes returns no error and stores x in the receiver;
equivalently ParseLanguage maps its own valid results to themselves. -/
theorem Language_text_roundtrip (tbl : CaseTables) (s : String) (r0 : Language)
    (h : (ParseLanguage tbl s).IsValid = true) :
    (ParseLanguage tbl s).MarshalText.2 = none ∧
      Language.UnmarshalText tbl r0 (ParseLanguage tbl s).MarshalText.1 =
        (ParseLanguage tbl s, none) ∧
      ParseLanguage tbl (ParseLanguage tbl s) = ParseLanguage tbl s := by
  have hne := (Language_IsValid_iff _).mp h
  have hmem : ParseLanguage tbl s ∈ ISO_639_2T_1998_CODES :=
    (ParseLanguage_mem_or_undefined tbl s).resolve_left hne
  have e : ParseLanguage tbl (ParseLanguage tbl s) = ParseLanguage tbl s :=
    ParseLanguage_of_T tbl hmem
  refine ⟨rfl, ?_, e⟩
  simp only [Language.UnmarshalText, Language.MarshalText, e, h]
  rfl

theorem Language_text_roundtrip_witness :
    (ParseLanguage asciiTables "FR").IsValid = true ∧
      ((ParseLanguage asciiTables "FR").MarshalText.2 = none ∧
        Language.UnmarshalText asciiTables "zul" (ParseLanguage asciiTables "FR").MarshalText.1 =
          (ParseLanguage asciiTables "FR", none) ∧
        ParseLanguage asciiTables (ParseLanguage asciiTables "FR") =
          ParseLanguage asciiTables "FR") :=
  ⟨by decide!, Language_text_roundtrip asciiTables "FR" "zul" (by decide!)⟩

/-- C6: for every pair (b, t) of ISO_639_2B_TO_2T_MAP, ParseLanguage of the bibliographic
code b and ParseLanguage of the terminology code t both return t. -/
theorem ParseLanguage_B_T_pair (tbl : CaseTables) (p : String × String)
    (h : p ∈ ISO_639_2B_TO_2T_MAP) :
    ParseLanguage tbl p.1 = ParseLanguage tbl p.2 ∧ ParseLanguage tbl p.2 = p.2 := by
  have e1 : ParseLanguage tbl p.1 = p.2 := ParseLanguage_of_B tbl h
  have e2 : ParseLanguage tbl p.2 = p.2 := ParseLanguage_of_T tbl (lang2B_map_values p h)
  exact ⟨by rw [e1, e2], e2⟩

theorem ParseLanguage_B_T_pair_witness :
    ("ger", "deu") ∈ ISO_639_2B_TO_2T_MAP ∧
      (ParseLanguage asciiTables "ger" = ParseLanguage asciiTables "deu" ∧
        ParseLanguage asciiTables "deu" = "deu") :=
  ⟨by decide!, ParseLanguage_B_T_pair asciiTables ("ger", "deu") (by decide!)⟩

/-- C7: for every two-letter code c of ISO_639_1_2002_CODES, ParseLanguage of c is valid, is
the entry of c in ISO_639_1_TO_2T_MAP (so the entry exists), and is a three-byte member of
the T table. -/
theorem ParseLanguage_two_letter (tbl : CaseTables) (c : String)
    (h : c ∈ ISO_639_1_2002_CODES) :
    (ParseLanguage tbl c).IsValid = true ∧
      mapGet ISO_639_1_TO_2T_MAP c = some (ParseLanguage tbl c) ∧
      ParseLanguage tbl c ∈ ISO_639_2T_1998_CODES ∧ len (ParseLanguage tbl c) = 3 := by
  have hm := ParseLanguage_of_1 tbl h
  have hT : ParseLanguage tbl c ∈ ISO_639_2T_1998_CODES :=
    lang1_map_values _ (mapGet_mem hm)
  exact ⟨(Language_IsValid_iff _).mpr (T_codes_ne_undefined hT), hm, hT,
    (lang2T_codes_facts _ hT).2.1⟩

theorem ParseLanguage_two_letter_witness :
    "de" ∈ ISO_639_1_2002_CODES ∧
      ((ParseLanguage asciiTables "de").IsValid = true ∧
        mapGet ISO_639_1_TO_2T_MAP "de" = some (ParseLanguage asciiTables "de") ∧
        ParseLanguage asciiTables "de" ∈ ISO_639_2T_1998_CODES ∧
        len (ParseLanguage asciiTables "de") = 3) :=
  ⟨by decide!, ParseLanguage_two_letter asciiTables "de" (by decide!)⟩

/-- C8: for every code t of ISO_639_2T_1998_CODES, ParseLanguage of t returns t unchanged. -/
theorem ParseLanguage_T_code (tbl : CaseTables) (t : String)
    (h : t ∈ ISO_639_2T_1998_CODES) : ParseLanguage tbl t = t :=
  ParseLanguage_of_T tbl h

theorem ParseLanguage_T_code_witness :
    "deu" ∈ ISO_639_2T_1998_CODES ∧ ParseLanguage asciiTables "deu" = "deu" :=
  ⟨by decide!, ParseLanguage_T_code asciiTables "deu" (by decide!)⟩

/-- C9: when the lower-cased input has a byte length other than 2 or 3, or has length 2 and
is not in the two-letter table, or has length 3 and is in neither the T table nor the
B table, ParseLanguage returns the undefined sentinel and IsValid of the result is false. -/
theorem ParseLanguage_unknown (tbl : CaseTables) (s : String)
    (h : (len (ToLower tbl s) ≠ 2 ∧ len (ToLower tbl s) ≠ 3) ∨
      (len (ToLower tbl s) = 2 ∧ ToLower tbl s ∉ ISO_639_1_2002_CODES) ∨
      (len (ToLower tbl s) = 3 ∧ ToLower tbl s ∉ ISO_639_2T_1998_CODES ∧
        ToLower tbl s ∉ ISO_639_2B_1998_CODES)) :
    ParseLanguage tbl s = LanguageUndefined ∧ (ParseLanguage tbl s).IsValid = false := by
  have e : ParseLanguage tbl s = LanguageUndefined := by
    rw [ParseLanguage_eq]
    rcases h with ⟨h2, h3⟩ | ⟨h2, h1⟩ | ⟨h3, hT, hB⟩
    · rw [if_neg h2, if_neg h3]
    · rw [if_pos h2, if_neg h1]
    · have h2 : len (ToLower tbl s) ≠ 2 := by rw [h3]; decide
      rw [if_neg h2, if_pos h3, if_neg hT, if_neg hB]
  refine ⟨e, ?_⟩
  rw [e]
  rfl

theorem ParseLanguage_unknown_witness :
    (ParseLanguage asciiTables "german" = LanguageUndefined ∧
        (ParseLanguage asciiTables "german").IsValid = false) ∧
      (ParseLanguage asciiTables "" = LanguageUndefined ∧
        (ParseLanguage asciiTables "").IsValid = false) ∧
      (ParseLanguage asciiTables "XX" = LanguageUndefined ∧
        (ParseLanguage asciiTables "XX").IsValid = false) ∧
      (ParseLanguage asciiTables "xyz" = LanguageUndefined ∧
        (ParseLanguage asciiTables "xyz").IsValid = false) :=
  ⟨ParseLanguage_unknown asciiTables "german" (by decide!),
   ParseLanguage_unknown asciiTables "" (by decide!),
   ParseLanguage_unknown asciiTables "XX" (by decide!),
   ParseLanguage_unknown asciiTables "xyz" (by decide!)⟩

/-- C10: for every input s, ParseLanguage of s is the undefined sentinel or a member of
ISO_639_2T_1998_CODES; every value of the two-letter map and of the B map is a member of
ISO_639_2T_1998_CODES. -/
theorem ParseLanguage_invariant :
    (∀ (tbl : CaseTables) (s : String),
      ParseLanguage tbl s = LanguageUndefined ∨ ParseLanguage tbl s ∈ ISO_639_2T_1998_CODES) ∧
    (∀ p ∈ ISO_639_1_TO_2T_MAP, p.2 ∈ ISO_639_2T_1998_CODES) ∧
    (∀ p ∈ ISO_639_2B_TO_2T_MAP, p.2 ∈ ISO_639_2T_1998_CODES) :=
  ⟨ParseLanguage_mem_or_undefined, lang1_map_values, lang2B_map_values⟩

theorem ParseLanguage_invariant_witness :
    (ParseLanguage asciiTables "EN" = LanguageUndefined ∨
        ParseLanguage asciiTables "EN" ∈ ISO_639_2T_1998_CODES) ∧
      ParseLanguage asciiTables "EN" = "eng" ∧
      ("fre", "fra").2 ∈ ISO_639_2T_1998_CODES :=
  ⟨ParseLanguage_invariant.1 asciiTables "EN", by decide!,
   ParseLanguage_invariant.2.2 ("fre", "fra") (by decide!)⟩

/-! ## ASCII strings: bytes and runes coincide -/

theorem utf8Size_of_ascii {c : Char} (h : c.toNat < 128) : c.utf8Size = 1 := by
  have h' : c.val ≤ 127 := by
    rw [UInt32.le_def]
    show c.val.toNat ≤ 127
    have : c.toNat = c.val.toNat := rfl
    omega
  simp [Char.utf8Size, h']

theorem utf8ByteSize_go_of_ascii (l : List Char) (h : ∀ c ∈ l, c.toNat < 128) :
    String.utf8ByteSize.go l = l.length := by
  induction l with
  | nil => rfl
  | cons c cs ih =>
    simp only [String.utf8ByteSize.go, List.length_cons]
    rw [ih (fun x hx => h x (List.mem_cons_of_mem _ hx)), utf8Size_of_ascii (h c (List.mem_cons_self _ _))]

theorem asciiOnly_iff (s : String) : asciiOnly s = true ↔ ∀ c ∈ s.data, c.toNat < 128 := by
  simp [asciiOnly, List.all_eq_true]

theorem len_of_ascii {s : String} (h : asciiOnly s = true) : len s = s.data.length := by
  obtain ⟨l⟩ := s
  exact utf8ByteSize_go_of_ascii l ((asciiOnly_iff _).mp h)

theorem ite_char_ascii {p : Prop} [Decidable p] {a b : Char} (ha : a.toNat < 128)
    (hb : b.toNat < 128) : (if p then a else b).toNat < 128 := by
  split <;> assumption

theorem digitChar_ascii (n : Nat) : (Nat.digitChar n).toNat < 128 := by
  unfold Nat.digitChar
  repeat (apply ite_char_ascii (by decide))
  decide

theorem toDigitsCore_ascii (b : Nat) : ∀ (fuel n : Nat) (ds : List Char),
    (∀ c ∈ ds, c.toNat < 128) → ∀ c ∈ Nat.toDigitsCore b fuel n ds, c.toNat < 128 := by
  intro fuel
  induction fuel with
  | zero => intro n ds h; simpa [Nat.toDigitsCore] using h
  | succ fuel ih =>
    intro n ds h
    have hd : ∀ c ∈ Nat.digitChar (n % b) :: ds, c.toNat < 128 := by
      intro c hc
      rcases List.mem_cons.mp hc with rfl | hc
      · exact digitChar_ascii _
      · exact h c hc
    simp only [Nat.toDigitsCore]
    split_ifs
    · exact hd
    · exact ih _ _ hd

theorem repr_ascii (n : Nat) : asciiOnly (Nat.repr n) = true := by
  rw [asciiOnly_iff]
  exact toDigitsCore_ascii 10 _ _ [] (by simp)
theorem asciiOnly_append {s t : String} (hs : asciiOnly s = true) (ht : asciiOnly t = true) :
    asciiOnly (s ++ t) = true := by
  rw [asciiOnly_iff] at *
  intro c hc
  rw [String.data_append, List.mem_append] at hc
  rcases hc with hc | hc
  · exact hs c hc
  · exact ht c hc

theorem fracDigits_ascii (prec n : Nat) : asciiOnly (fracDigits prec n) = true := by
  rw [asciiOnly_iff]
  intro c hc
  simp only [fracDigits, List.mem_map] at hc
  obtain ⟨j, -, rfl⟩ := hc
  exact digitChar_ascii _

theorem fracDigits_length (prec n : Nat) : (fracDigits prec n).data.length = prec := by
  simp [fracDigits]

theorem fmtFloat_ascii (prec : Nat) (x : Float64) : asciiOnly (fmtFloat prec x) = true := by
  cases x with
  | finite neg mant exp =>
    simp only [fmtFloat]
    refine asciiOnly_append (asciiOnly_append ?_ (repr_ascii _)) ?_
    · split <;> decide
    · split
      · decide
      · exact asciiOnly_append (by decide) (fracDigits_ascii _ _)
  | inf neg => cases neg <;> simp only [fmtFloat] <;> decide
  | nan neg => simp only [fmtFloat]; decide

theorem fmtFloat_length (prec : Nat) (hp : 0 < prec) (x : Float64) :
    2 ≤ (fmtFloat prec x).data.length := by
  cases x with
  | finite neg mant exp =>
    have hp' : prec ≠ 0 := Nat.pos_iff_ne_zero.mp hp
    simp only [fmtFloat, if_neg hp', String.data_append, List.length_append, fracDigits_length]
    simp only [List.length_singleton, String.data_append, List.length_append]
    have h1 : ".".data.length = 1 := rfl
    omega
  | inf neg => cases neg <;> simp only [fmtFloat] <;> decide
  | nan neg => simp only [fmtFloat]; decide

theorem sliceFrom_of_ascii {s : String} (h : asciiOnly s = true) {i : Nat}
    (hi : i ≤ s.data.length) : sliceFrom s (i : Int) = some (String.mk (s.data.drop i)) := by
  have hl := len_of_ascii h
  unfold sliceFrom
  rw [if_pos]
  · simp
  · constructor
    · exact Int.natCast_nonneg i
    · rw [hl]; exact_mod_cast hi

/-! ## The formatting pipeline never panics -/

theorem asciiOnly_mk_take {s : String} (h : asciiOnly s = true) (n : Nat) :
    asciiOnly (String.mk (s.data.take n)) = true := by
  rw [asciiOnly_iff] at *
  intro c hc
  exact h c (List.mem_of_mem_take hc)

theorem TrimSuffix_ascii {s : String} (h : asciiOnly s = true) (suffix : String) :
    asciiOnly (TrimSuffix s suffix) = true := by
  unfold TrimSuffix
  split
  · exact asciiOnly_mk_take h _
  · exact h

theorem TrimSuffix_length (s suffix : String) :
    s.data.length - suffix.data.length ≤ (TrimSuffix s suffix).data.length := by
  unfold TrimSuffix
  split
  · simp
  · exact Nat.sub_le _ _

theorem separateLoop_isSome : ∀ (i : Nat) (value : String) (result : List String),
    asciiOnly value = true → 3 * i ≤ value.data.length →
    ∃ r, separateLoop i value result = some r := by
  intro i
  induction i with
  | zero => intro value result _ _; exact ⟨_, rfl⟩
  | succ i ih =>
    intro value result ha hl
    have hlen := len_of_ascii ha
    have h3 : 3 ≤ value.data.length := by omega
    have hidx : ((len value : Int) - 3) = ((value.data.length - 3 : Nat) : Int) := by
      rw [hlen]; omega
    have hs := sliceFrom_of_ascii ha (Nat.sub_le value.data.length 3)
    simp only [separateLoop, hidx, hs]
    apply ih _ _ (TrimSuffix_ascii ha _)
    have ht := TrimSuffix_length value (String.mk (value.data.drop (value.data.length - 3)))
    have hd : (String.mk (value.data.drop (value.data.length - 3))).data.length = 3 := by
      simp only [List.length_drop]; omega
    omega

theorem separateThousands_isSome (c : currency) {value : String}
    (ha : asciiOnly value = true) : ∃ r, c.separateThousands value = some r := by
  unfold currency.separateThousands
  simp only
  split
  · exact ⟨_, rfl⟩
  · have hlen := len_of_ascii ha
    obtain ⟨r, hr⟩ := separateLoop_isSome
      ((if len value % 3 > 0 then len value / 3 + 1 else len value / 3) - 1) value
      (List.replicate (if len value % 3 > 0 then len value / 3 + 1 else len value / 3) "")
      ha (by rw [← hlen]; split <;> omega)
    exact ⟨_, by rw [hr]; rfl⟩

theorem splitValue_eq (c : currency) (val : Float64) :
    c.splitValue val = some (fmtFloat 0 (math.Modf val).1,
      if 0 < c.SubUnitPrecision then
        String.mk ((fmtFloat c.SubUnitPrecision.toNat (math.Modf val).2).data.drop 2)
      else "") := by
  unfold currency.splitValue
  simp only
  split
  · rename_i hp
    have hp' : 0 < c.SubUnitPrecision.toNat := by omega
    have hs := sliceFrom_of_ascii (fmtFloat_ascii c.SubUnitPrecision.toNat (math.Modf val).2)
      (fmtFloat_length _ hp' (math.Modf val).2)
    have h2 : ((2 : Nat) : Int) = 2 := rfl
    rw [h2] at hs
    rw [hs]
  · rfl

theorem Format_nil (c : Currency) (val : Float64) :
    c.Format val none = c.Format val (some NewCurrencyOptions) := rfl

theorem grouping_isSome (cc : currency) (b : Bool) (x : Float64) :
    ∃ grouped, (if b = true then cc.separateThousands (fmtFloat 0 x)
      else some (fmtFloat 0 x)) = some grouped := by
  cases b
  · exact ⟨_, rfl⟩
  · exact separateThousands_isSome cc (fmtFloat_ascii 0 x)

/-- Format as a composition of its steps: split, group, append the cents, add the symbol,
append the code. Each step yields a value, so Format yields one. -/
theorem Format_steps (c : Currency) (val : Float64) (o : CurrencyOptions) :
    ∃ integer fractional grouped,
      c.metadata.splitValue (math.Abs val) = some (integer, fractional) ∧
      (if o.WithThousandsSeparator = true then c.metadata.separateThousands integer
        else some integer) = some grouped ∧
      c.Format val (some o) = some
        (if o.WithCurrency = true then
          (if o.WithSymbol = true then
            c.metadata.addSymbol
              (if (o.WithCents && c.metadata.SubUnit != "") = true then
                (if math.Signbit val = true then "-" else "") ++ grouped ++
                  c.metadata.DecimalMark ++ fractional
              else grouped) o
          else
            (if (o.WithCents && c.metadata.SubUnit != "") = true then
              (if math.Signbit val = true then "-" else "") ++ grouped ++
                c.metadata.DecimalMark ++ fractional
            else grouped)) ++ " " ++ c
        else
          (if o.WithSymbol = true then
            c.metadata.addSymbol
              (if (o.WithCents && c.metadata.SubUnit != "") = true then
                (if math.Signbit val = true then "-" else "") ++ grouped ++
                  c.metadata.DecimalMark ++ fractional
              else grouped) o
          else
            (if (o.WithCents && c.metadata.SubUnit != "") = true then
              (if math.Signbit val = true then "-" else "") ++ grouped ++
                c.metadata.DecimalMark ++ fractional
            else grouped))) := by
  obtain ⟨grouped, hg⟩ := grouping_isSome c.metadata o.WithThousandsSeparator
    (math.Modf (math.Abs val)).1
  refine ⟨_, _, grouped, splitValue_eq _ _, hg, ?_⟩
  unfold Currency.Format
  simp only [splitValue_eq, hg]

theorem Format_isSome (c : Currency) (val : Float64) (opts : Option CurrencyOptions) :
    ∃ r, c.Format val opts = some r := by
  cases opts with
  | none =>
    obtain ⟨_, _, _, _, _, h⟩ := Format_steps c val NewCurrencyOptions
    exact ⟨_, by rw [Format_nil, h]⟩
  | some o =>
    obtain ⟨_, _, _, _, _, h⟩ := Format_steps c val o
    exact ⟨_, h⟩

/-! ## Facts read off the currencies table -/

theorem currencies_keys_nodup : (currencies.map Prod.fst).Nodup := by
  decide!

theorem currencies_symbols_nonempty : ∀ p ∈ currencies, p.1 ≠ "UZS" → p.2.Symbol ≠ "" := by
  decide!

theorem currencies_of_codes : ∀ c ∈ ISO_4217_CURRENCY_CODES,
    (currenciesGet currencies c).isSome =
      !(["BOV", "BYN", "CHE", "CHW", "COU", "MXV", "USN", "UYI", "XBA", "XBB", "XBC", "XBD",
        "XPD", "XPT", "XSU", "XTS", "XUA", "XXX"].contains c) := by
  decide!

theorem currenciesGet_mem {m : List (String × currency)} {k : String} {v : currency}
    (h : currenciesGet m k = some v) : (k, v) ∈ m := by
  induction m with
  | nil => simp [currenciesGet] at h
  | cons p rest ih =>
    obtain ⟨a, b⟩ := p
    by_cases e : a = k
    · simp [currenciesGet, e] at h
      simp [e, h]
    · simp [currenciesGet, e] at h
      exact List.mem_cons_of_mem _ (ih h)

theorem currenciesGet_of_mem {m : List (String × currency)} (hm : (m.map Prod.fst).Nodup)
    {k : String} {v : currency} (h : (k, v) ∈ m) : currenciesGet m k = some v := by
  induction m with
  | nil => simp at h
  | cons p rest ih =>
    obtain ⟨a, b⟩ := p
    simp only [List.map_cons, List.nodup_cons] at hm
    rcases List.mem_cons.mp h with e | h'
    · cases e
      simp [currenciesGet]
    · have hne : a ≠ k := by
        intro e
        subst e
        exact hm.1 (List.mem_map_of_mem Prod.fst h')
      simp only [currenciesGet, if_neg hne]
      exact ih hm.2 h'

theorem currenciesGet_none {m : List (String × currency)} {k : String}
    (h : ∀ v, (k, v) ∉ m) : currenciesGet m k = none := by
  cases hg : currenciesGet m k with
  | none => rfl
  | some v => exact absurd (currenciesGet_mem hg) (h v)

/-! ## Claims about Format on concrete amounts -/

/-- C11: Format of 1234.5 (the double 2469 * 2^-1) in USD with the default options, given
explicitly or as a nil pointer, returns exactly "$1,234.50". -/
theorem Format_USD_default :
    (Float64.finite false 2469 (-1)).toRat = 1234.5 ∧
    (Float64.finite false 2469 (-1)).representable = true ∧
    Currency.Format "USD" (.finite false 2469 (-1)) (some NewCurrencyOptions) =
      some "$1,234.50" ∧
    Currency.Format "USD" (.finite false 2469 (-1)) none = some "$1,234.50" := by
  refine ⟨by norm_num [Float64.toRat], by decide, by decide!, by decide!⟩

/-- C12, as the claim states it: Format of -1234.5 in USD with the default options is not
"-$1,234.50". -/
theorem Format_USD_negative_not_sign_first :
    (Float64.finite true 2469 (-1)).toRat = -1234.5 ∧
    Currency.Format "USD" (.finite true 2469 (-1)) none ≠ some "-$1,234.50" := by
  refine ⟨by norm_num [Float64.toRat], by decide!⟩

/-- C12, amended: Format of -1234.5 in USD with the default options returns exactly
"$-1,234.50"; the minus sign is part of the numeric string and the symbol of a symbol-first
currency is put in front of the signed number. -/
theorem Format_USD_negative :
    (Float64.finite true 2469 (-1)).toRat = -1234.5 ∧
    (Float64.finite true 2469 (-1)).representable = true ∧
    (Currency.metadata "USD").SymbolFirst = true ∧
    Currency.Format "USD" (.finite true 2469 (-1)) (some NewCurrencyOptions) =
      some "$-1,234.50" ∧
    Currency.Format "USD" (.finite true 2469 (-1)) none = some "$-1,234.50" := by
  refine ⟨by norm_num [Float64.toRat], by decide, by decide!, by decide!, by decide!⟩

/-- C13, the code at the failing inputs: for the negative amounts -1000 in JPY (no subunit
name) and -1234.5 in USD with WithCents off, and for negative zero in JPY, Format returns the
unsigned string. -/
theorem Format_negative_drops_sign :
    math.Signbit (.finite true 1000 0) = true ∧
    (Float64.finite true 1000 0).toRat = -1000 ∧
    Currency.Format "JPY" (.finite true 1000 0) none = some "¥1,000" ∧
    Currency.Format "JPY" (.finite false 1000 0) none = some "¥1,000" ∧
    Currency.Format "USD" (.finite true 2469 (-1)) (some ⟨false, false, true, false, true⟩) =
      some "$1,234" ∧
    Currency.Format "JPY" (.finite true 0 0) none = some "¥0" := by
  refine ⟨rfl, by norm_num [Float64.toRat], by decide!, by decide!, by decide!, by decide!⟩

/-- C14: Format of 1234.5 in EUR with the default options groups with ".", uses "," as
decimal mark, puts the symbol after the amount without a space, and returns exactly
"1.234,50€". -/
theorem Format_EUR_default :
    (Float64.finite false 2469 (-1)).toRat = 1234.5 ∧
    (Currency.metadata "EUR").ThousandsSeparator = "." ∧
    (Currency.metadata "EUR").DecimalMark = "," ∧
    (Currency.metadata "EUR").SymbolFirst = false ∧
    NewCurrencyOptions.WithSymbolSpace = false ∧
    Currency.Format "EUR" (.finite false 2469 (-1)) (some NewCurrencyOptions) =
      some "1.234,50€" ∧
    Currency.Format "EUR" (.finite false 2469 (-1)) none = some "1.234,50€" := by
  refine ⟨by norm_num [Float64.toRat], by decide!, by decide!, by decide!, rfl, by decide!,
    by decide!⟩

/-! ## Claims about the metadata table and the fallback record -/

/-- C15: for a code c without an entry in currencies, Format works with the synthetic record
(name and symbol c, symbol after the amount, "," and "." as separators, precision 2, no
subunit name), it returns a value for every amount and option set, and that value is the
grouped integer string followed by the optional space and c, and by " " and c when
WithCurrency is set; Format of 1234.5 for "XYZ" with the default options is "1,234XYZ". -/
theorem Format_unknown_code :
    (∀ (c : Currency) (val : Float64) (o : CurrencyOptions),
      currenciesGet currencies c = none →
      c.metadata = currency.mk 0 c c false [] "," "." "" 100 2 "" ∧
      (∃ r, c.Format val none = some r) ∧
      ∃ grouped,
        (if o.WithThousandsSeparator = true then
          (currency.mk 0 c c false [] "," "." "" 100 2 "").separateThousands
            (fmtFloat 0 (math.Modf (math.Abs val)).1)
        else some (fmtFloat 0 (math.Modf (math.Abs val)).1)) = some grouped ∧
        c.Format val (some o) = some
          (if o.WithCurrency = true then
            (if o.WithSymbol = true then
              grouped ++ (if o.WithSymbolSpace = true then " " else "") ++ c
            else grouped) ++ " " ++ c
          else
            (if o.WithSymbol = true then
              grouped ++ (if o.WithSymbolSpace = true then " " else "") ++ c
            else grouped))) ∧
    currenciesGet currencies "XYZ" = none ∧
    Currency.Format "XYZ" (.finite false 2469 (-1)) none = some "1,234XYZ" := by
  refine ⟨?_, by decide!, by decide!⟩
  intro c val o h
  have hm : c.metadata = currency.mk 0 c c false [] "," "." "" 100 2 "" := by
    simp [Currency.metadata, h, fallbackCurrency]
  refine ⟨hm, Format_isSome c val none, ?_⟩
  obtain ⟨integer, fractional, grouped, hs, hg, hf⟩ := Format_steps c val o
  rw [splitValue_eq] at hs
  have hi : fmtFloat 0 (math.Modf (math.Abs val)).1 = integer := by
    injection hs with hs
    exact (Prod.mk.inj hs).1
  rw [hm] at hg hf
  rw [← hi] at hg
  refine ⟨grouped, hg, ?_⟩
  rw [hf]
  simp [currency.addSymbol]

theorem Format_unknown_code_witness :
    currenciesGet currencies "ZZZ" = none ∧
      Currency.metadata "ZZZ" = currency.mk 0 "ZZZ" "ZZZ" false [] "," "." "" 100 2 "" ∧
      ∃ r, Currency.Format "ZZZ" (.finite true 7 (-2)) none = some r :=
  ⟨by decide!,
   (Format_unknown_code.1 "ZZZ" (.finite true 7 (-2)) NewCurrencyOptions (by decide!)).1,
   (Format_unknown_code.1 "ZZZ" (.finite true 7 (-2)) NewCurrencyOptions (by decide!)).2.1⟩

/-- C16, as the claim states it: not every code of ISO_4217_CURRENCY_CODES has a record in
currencies; "BYN" is accepted by ParseCurrency and has none, so Format works with the
synthetic record for it. -/
theorem currencies_lacks_parsed_code :
    ¬ (∀ c ∈ ISO_4217_CURRENCY_CODES, ∃ cc, currenciesGet currencies c = some cc) := by
  intro h
  obtain ⟨cc, hcc⟩ := h "BYN" (by decide!)
  have hn : currenciesGet currencies "BYN" = none := by decide!
  rw [hn] at hcc
  exact Option.noConfusion hcc

/-- C16, amended: no key occurs twice in currencies, and a code of ISO_4217_CURRENCY_CODES
has exactly one record unless it is one of BOV, BYN, CHE, CHW, COU, MXV, USN, UYI, XBA,
XBB, XBC, XBD, XPD, XPT, XSU, XTS, XUA, XXX; these eighteen have no record, and Format and
Symbol use the synthetic record and the raw code for them. -/
theorem currencies_records_of_codes (c : Currency) (h : c ∈ ISO_4217_CURRENCY_CODES) :
    (c ∉ ["BOV", "BYN", "CHE", "CHW", "COU", "MXV", "USN", "UYI", "XBA", "XBB", "XBC", "XBD",
        "XPD", "XPT", "XSU", "XTS", "XUA", "XXX"] →
      (currencies.map Prod.fst).count c = 1 ∧
      ∃ cc, currenciesGet currencies c = some cc ∧ c.metadata = cc ∧ c.Symbol = cc.Symbol) ∧
    (c ∈ ["BOV", "BYN", "CHE", "CHW", "COU", "MXV", "USN", "UYI", "XBA", "XBB", "XBC", "XBD",
        "XPD", "XPT", "XSU", "XTS", "XUA", "XXX"] →
      (currencies.map Prod.fst).count c = 0 ∧ currenciesGet currencies c = none ∧
      c.metadata = currency.mk 0 c c false [] "," "." "" 100 2 "" ∧ c.Symbol = c) := by
  have hf := currencies_of_codes c h
  constructor
  · intro hc
    have hc' : (["BOV", "BYN", "CHE", "CHW", "COU", "MXV", "USN", "UYI", "XBA", "XBB", "XBC",
        "XBD", "XPD", "XPT", "XSU", "XTS", "XUA", "XXX"].contains c) = false := by
      simpa using hc
    rw [hc'] at hf
    cases hg : currenciesGet currencies c with
    | none => rw [hg] at hf; simp at hf
    | some cc =>
      refine ⟨?_, cc, rfl, by simp [Currency.metadata, hg], by simp [Currency.Symbol, hg]⟩
      exact List.count_eq_one_of_mem currencies_keys_nodup
        (List.mem_map_of_mem Prod.fst (currenciesGet_mem hg))
  · intro hc
    have hc' : (["BOV", "BYN", "CHE", "CHW", "COU", "MXV", "USN", "UYI", "XBA", "XBB", "XBC",
        "XBD", "XPD", "XPT", "XSU", "XTS", "XUA", "XXX"].contains c) = true := by
      simpa using hc
    rw [hc'] at hf
    have hg : currenciesGet currencies c = none := by
      cases hg : currenciesGet currencies c with
      | none => rfl
      | some cc => rw [hg] at hf; simp at hf
    refine ⟨?_, hg, by simp [Currency.metadata, hg, fallbackCurrency],
      by simp [Currency.Symbol, hg]⟩
    rw [List.count_eq_zero]
    intro hmem
    obtain ⟨p, hp, hpc⟩ := List.mem_map.mp hmem
    obtain ⟨a, b⟩ := p
    simp only at hpc
    subst hpc
    rw [currenciesGet_of_mem currencies_keys_nodup hp] at hg
    exact Option.noConfusion hg

theorem currencies_records_of_codes_witness :
    ((currencies.map Prod.fst).count "USD" = 1 ∧
      ∃ cc, currenciesGet currencies "USD" = some cc ∧ Currency.metadata "USD" = cc ∧
        Currency.Symbol "USD" = cc.Symbol) ∧
    ((currencies.map Prod.fst).count "XXX" = 0 ∧ currenciesGet currencies "XXX" = none ∧
      Currency.metadata "XXX" = currency.mk 0 "XXX" "XXX" false [] "," "." "" 100 2 "" ∧
      Currency.Symbol "XXX" = "XXX") :=
  ⟨(currencies_records_of_codes "USD" (by decide!)).1 (by decide),
   (currencies_records_of_codes "XXX" (by decide!)).2 (by decide)⟩

/-! ## Claims about Symbol -/

/-- C17: Symbol of c is the Symbol field of the record that currencies holds for c, and the
raw code c when currencies holds no record for c. -/
theorem Symbol_spec (c : Currency) :
    (∀ cc, (c, cc) ∈ currencies → c.Symbol = cc.Symbol) ∧
    ((∀ cc, (c, cc) ∉ currencies) → c.Symbol = c) := by
  constructor
  · intro cc h
    simp [Currency.Symbol, currenciesGet_of_mem currencies_keys_nodup h]
  · intro h
    simp [Currency.Symbol, currenciesGet_none h]

theorem Symbol_spec_witness :
    Currency.Symbol "USD" = "$" ∧ Currency.Symbol "XYZ" = "XYZ" :=
  ⟨(Symbol_spec "USD").1
      (currency.mk 840 "United States Dollar" "$" true ["US$"] "," "." "Cent" 100 2 "$")
      (by decide!),
   (Symbol_spec "XYZ").2 (fun cc hm =>
      Option.noConfusion
        ((currenciesGet_of_mem currencies_keys_nodup hm).symm.trans
          (by decide! : currenciesGet currencies "XYZ" = none)))⟩

/-- C18, as the claim states it: Symbol is not non-empty for every non-empty code; the code
"UZS" is in both tables and its record has the empty symbol. -/
theorem Symbol_empty_for_UZS : ¬ (∀ c : Currency, c ≠ "" → c.Symbol ≠ "") := by
  intro h
  exact h "UZS" (by decide) (by decide!)

/-- C18, amended: for every non-empty code c other than "UZS", Symbol of c is a non-empty
string. -/
theorem Symbol_nonempty (c : Currency) (h : c ≠ "") (hu : c ≠ "UZS") : c.Symbol ≠ "" := by
  unfold Currency.Symbol
  cases hg : currenciesGet currencies c with
  | none => exact h
  | some cc => exact currencies_symbols_nonempty (c, cc) (currenciesGet_mem hg) hu

theorem Symbol_nonempty_witness :
    Currency.Symbol "EUR" ≠ "" ∧ Currency.Symbol "XYZ" ≠ "" :=
  ⟨Symbol_nonempty "EUR" (by decide) (by decide),
   Symbol_nonempty "XYZ" (by decide) (by decide)⟩

/-! ## Claims about the steps of Format -/

/-- C19: for every amount, code and option set Format returns a value built from a numeric
part, and the numeric part is sign, grouped integer string, decimal mark and fractional
digits when WithCents is set and the subunit name of the metadata is non-empty, and the
(optionally grouped) integer string alone otherwise; Format of 1000 in JPY with the default
options is "¥1,000". -/
theorem Format_cents_rule :
    (∀ (c : Currency) (val : Float64) (o : CurrencyOptions),
      ∃ integer fractional grouped numeric,
        c.metadata.splitValue (math.Abs val) = some (integer, fractional) ∧
        (if o.WithThousandsSeparator = true then c.metadata.separateThousands integer
          else some integer) = some grouped ∧
        numeric =
          (if o.WithCents = true ∧ c.metadata.SubUnit ≠ "" then
            (if math.Signbit val = true then "-" else "") ++ grouped ++
              c.metadata.DecimalMark ++ fractional
          else grouped) ∧
        c.Format val (some ⟨o.WithCents, false, false, o.WithSymbolSpace,
          o.WithThousandsSeparator⟩) = some numeric ∧
        c.Format val (some o) = some
          (if o.WithCurrency = true then
            (if o.WithSymbol = true then c.metadata.addSymbol numeric o else numeric) ++
              " " ++ c
          else (if o.WithSymbol = true then c.metadata.addSymbol numeric o else numeric))) ∧
    (Currency.metadata "JPY").SubUnit = "" ∧
    Currency.Format "JPY" (.finite false 1000 0) none = some "¥1,000" := by
  refine ⟨?_, by decide!, by decide!⟩
  intro c val o
  obtain ⟨integer, fractional, grouped, hs, hg, hf⟩ := Format_steps c val o
  obtain ⟨integer', fractional', grouped', hs', hg', hf'⟩ := Format_steps c val
    ⟨o.WithCents, false, false, o.WithSymbolSpace, o.WithThousandsSeparator⟩
  have e := hs.symm.trans hs'
  injection e with e
  obtain ⟨e1, e2⟩ := Prod.mk.inj e
  subst e1 e2
  simp only at hg' hf'
  have eg := hg.symm.trans hg'
  injection eg with eg
  subst eg
  have hcond : (o.WithCents && c.metadata.SubUnit != "") = true ↔
      (o.WithCents = true ∧ c.metadata.SubUnit ≠ "") := by
    simp
  refine ⟨integer, fractional, grouped, _, hs, hg, rfl, ?_, ?_⟩
  · rw [hf']
    simp only [hcond]
    simp
  · rw [hf]
    simp only [hcond]

/-- C20: with WithSymbol on and WithCurrency off, Format returns symbol, sp, n for a
symbol-first currency and n, sp, symbol otherwise, where n is what Format returns with
WithSymbol off and sp is one space when WithSymbolSpace is set and empty otherwise. -/
theorem Format_symbol_rule (c : Currency) (val : Float64) (o : CurrencyOptions)
    (hsym : o.WithSymbol = true) (hcur : o.WithCurrency = false) :
    ∃ n,
      c.Format val (some ⟨o.WithCents, o.WithCurrency, false, o.WithSymbolSpace,
        o.WithThousandsSeparator⟩) = some n ∧
      c.Format val (some o) = some
        (if c.metadata.SymbolFirst = true then
          c.metadata.Symbol ++ (if o.WithSymbolSpace = true then " " else "") ++ n
        else n ++ (if o.WithSymbolSpace = true then " " else "") ++ c.metadata.Symbol) := by
  obtain ⟨integer, fractional, grouped, hs, hg, hf⟩ := Format_steps c val o
  obtain ⟨integer', fractional', grouped', hs', hg', hf'⟩ := Format_steps c val
    ⟨o.WithCents, o.WithCurrency, false, o.WithSymbolSpace, o.WithThousandsSeparator⟩
  have e := hs.symm.trans hs'
  injection e with e
  obtain ⟨e1, e2⟩ := Prod.mk.inj e
  subst e1 e2
  simp only at hg' hf'
  have eg := hg.symm.trans hg'
  injection eg with eg
  subst eg
  refine ⟨_, hf', ?_⟩
  rw [hf]
  simp [hsym, hcur, currency.addSymbol]

theorem Format_symbol_rule_witness :
    Currency.Format "USD" (.finite false 2469 (-1)) (some ⟨true, false, true, true, true⟩) =
      some "$ 1,234.50" ∧
    ∃ n,
      Currency.Format "USD" (.finite false 2469 (-1)) (some ⟨true, false, false, true, true⟩) =
        some n ∧
      Currency.Format "USD" (.finite false 2469 (-1)) (some ⟨true, false, true, true, true⟩) =
        some
          (if (Currency.metadata "USD").SymbolFirst = true then
            (Currency.metadata "USD").Symbol ++ (if true = true then " " else "") ++ n
          else n ++ (if true = true then " " else "") ++ (Currency.metadata "USD").Symbol) :=
  ⟨by decide!,
   Format_symbol_rule "USD" (.finite false 2469 (-1)) ⟨true, false, true, true, true⟩ rfl rfl⟩

/-! ## Splitting at the first hyphen -/

theorem cutFirst_none {sep : Char} {l : List Char} (h : sep ∉ l) : cutFirst sep l = none := by
  induction l with
  | nil => rfl
  | cons c cs ih =>
    have hc : ¬ c = sep := fun e => h (by simp [e])
    have hcs : sep ∉ cs := fun m => h (List.mem_cons_of_mem _ m)
    simp [cutFirst, hc, ih hcs]

theorem cutFirst_append {sep : Char} {a : List Char} (h : sep ∉ a) (b : List Char) :
    cutFirst sep (a ++ sep :: b) = some (a, b) := by
  induction a with
  | nil => simp [cutFirst]
  | cons c cs ih =>
    have hc : ¬ c = sep := fun e => h (by simp [e])
    have hcs : sep ∉ cs := fun m => h (List.mem_cons_of_mem _ m)
    simp [cutFirst, hc, ih hcs]

theorem cutFirst_some {sep : Char} : ∀ {l a b : List Char},
    cutFirst sep l = some (a, b) → l = a ++ sep :: b ∧ sep ∉ a := by
  intro l
  induction l with
  | nil => intro a b h; simp [cutFirst] at h
  | cons c cs ih =>
    intro a b h
    by_cases hc : c = sep
    · simp only [cutFirst, if_pos hc] at h
      injection h with h
      obtain ⟨h1, h2⟩ := Prod.mk.inj h
      subst h1 h2
      simp [hc]
    · simp only [cutFirst, if_neg hc] at h
      cases hr : cutFirst sep cs with
      | none => rw [hr] at h; exact Option.noConfusion h
      | some p =>
        obtain ⟨a', b'⟩ := p
        rw [hr] at h
        injection h with h
        obtain ⟨h1, h2⟩ := Prod.mk.inj h
        subst h1 h2
        obtain ⟨e, hn⟩ := ih hr
        refine ⟨by rw [e]; rfl, ?_⟩
        intro hm
        rcases List.mem_cons.mp hm with e' | hm'
        · exact hc e'.symm
        · exact hn hm'

theorem hyphen_join_data (a b : String) :
    (a ++ "-" ++ b).data = a.data ++ '-' :: b.data := by
  simp [String.data_append]

theorem String_ne_empty_of_mem {s : String} {c : Char} (h : c ∈ s.data) : s ≠ "" := by
  intro e
  rw [e] at h
  simp at h

theorem Region_IsValid_iff (r : Region) : r.IsValid = true ↔ r ≠ RegionUndefined := by
  simp [Region.IsValid]

theorem ParseRegion_eq (cv : CountryValidator) (s : String) :
    ParseRegion cv s =
      if s = "" then RegionUndefined
      else
        match cutFirst '-' s.data with
        | none => RegionUndefined
        | some (a, _) =>
          if cv.IsValid (cv.ParseCountry (String.mk a)) = true then s else RegionUndefined := by
  unfold ParseRegion SplitN2
  split
  · rfl
  · cases h : cutFirst '-' s.data with
    | none => rfl
    | some p =>
      obtain ⟨a, b⟩ := p
      simp only
      cases hv : cv.IsValid (cv.ParseCountry (String.mk a)) <;> simp

theorem ParseRegion_join (cv : CountryValidator) (a b : String) (h : '-' ∉ a.data) :
    ParseRegion cv (a ++ "-" ++ b) =
      if cv.IsValid (cv.ParseCountry a) = true then a ++ "-" ++ b else RegionUndefined := by
  have hne : a ++ "-" ++ b ≠ "" :=
    String_ne_empty_of_mem (c := '-') (by rw [hyphen_join_data]; simp)
  rw [ParseRegion_eq, if_neg hne, hyphen_join_data, cutFirst_append h]

theorem ParseRegion_valid_split (cv : CountryValidator) (s : String)
    (h : ParseRegion cv s ≠ RegionUndefined) :
    ParseRegion cv s = s ∧ ∃ a b : String, s = a ++ "-" ++ b ∧ '-' ∉ a.data ∧
      cv.IsValid (cv.ParseCountry a) = true := by
  rw [ParseRegion_eq] at h ⊢
  split at h
  · exact absurd rfl h
  · rename_i hne
    rw [if_neg hne]
    cases hc : cutFirst '-' s.data with
    | none => rw [hc] at h; exact absurd rfl h
    | some p =>
      obtain ⟨a, b⟩ := p
      rw [hc] at h
      simp only at h ⊢
      split at h
      · rename_i hv
        rw [if_pos hv]
        obtain ⟨e, hn⟩ := cutFirst_some hc
        refine ⟨rfl, String.mk a, String.mk b, ?_, hn, hv⟩
        apply String.ext
        rw [hyphen_join_data]
        exact e
      · exact absurd rfl h

theorem Region_Country_join (a b : String) (h : '-' ∉ a.data) :
    Region.Country (a ++ "-" ++ b) = a := by
  have hne : a ++ "-" ++ b ≠ "" :=
    String_ne_empty_of_mem (c := '-') (by rw [hyphen_join_data]; simp)
  have hv : Region.IsValid (a ++ "-" ++ b) = true := (Region_IsValid_iff _).mpr hne
  unfold Region.Country SplitN2
  rw [hv, hyphen_join_data, cutFirst_append h]
  rfl

/-! ## Claims about ParseRegion -/

/-- C25: ParseRegion returns the undefined sentinel for the empty string, for every input
without a hyphen, and for every input whose part before the first hyphen the country
validator does not accept. -/
theorem ParseRegion_undefined (cv : CountryValidator) :
    ParseRegion cv "" = RegionUndefined ∧
    (∀ s : String, '-' ∉ s.data →
      ParseRegion cv s = RegionUndefined ∧ (ParseRegion cv s).IsValid = false) ∧
    (∀ a b : String, '-' ∉ a.data → cv.IsValid (cv.ParseCountry a) = false →
      ParseRegion cv (a ++ "-" ++ b) = RegionUndefined ∧
      (ParseRegion cv (a ++ "-" ++ b)).IsValid = false) := by
  refine ⟨rfl, ?_, ?_⟩
  · intro s h
    have e : ParseRegion cv s = RegionUndefined := by
      rw [ParseRegion_eq, cutFirst_none h]
      split <;> rfl
    exact ⟨e, by rw [e]; rfl⟩
  · intro a b h hv
    have e : ParseRegion cv (a ++ "-" ++ b) = RegionUndefined := by
      rw [ParseRegion_join cv a b h, hv]
      rfl
    exact ⟨e, by rw [e]; rfl⟩

theorem ParseRegion_undefined_witness :
    ParseRegion sampleCountries "USCA" = RegionUndefined ∧
    ParseRegion sampleCountries ("ZZ" ++ "-" ++ "1") = RegionUndefined ∧
    ParseRegion sampleCountries "ZZ-1" = RegionUndefined :=
  ⟨((ParseRegion_undefined sampleCountries).2.1 "USCA" (by decide)).1,
   ((ParseRegion_undefined sampleCountries).2.2 "ZZ" "1" (by decide) (by decide)).1,
   ((ParseRegion_undefined sampleCountries).2.2 "ZZ" "1" (by decide) (by decide)).1⟩

/-- C26: an input made of a part without hyphen that the country validator accepts, a
hyphen, and any rest is returned verbatim and is valid; and for every input ParseRegion
returns the undefined sentinel or the input itself. -/
theorem ParseRegion_verbatim (cv : CountryValidator) :
    (∀ a b : String, '-' ∉ a.data → cv.IsValid (cv.ParseCountry a) = true →
      ParseRegion cv (a ++ "-" ++ b) = a ++ "-" ++ b ∧
      (ParseRegion cv (a ++ "-" ++ b)).IsValid = true) ∧
    (∀ s : String, ParseRegion cv s = RegionUndefined ∨ ParseRegion cv s = s) := by
  constructor
  · intro a b h hv
    have e : ParseRegion cv (a ++ "-" ++ b) = a ++ "-" ++ b := by
      rw [ParseRegion_join cv a b h, if_pos hv]
    refine ⟨e, ?_⟩
    rw [e]
    exact (Region_IsValid_iff _).mpr
      (String_ne_empty_of_mem (c := '-') (by rw [hyphen_join_data]; simp))
  · intro s
    by_cases h : ParseRegion cv s = RegionUndefined
    · exact Or.inl h
    · exact Or.inr (ParseRegion_valid_split cv s h).1

theorem ParseRegion_verbatim_witness :
    ParseRegion sampleCountries "us-Ca" = "us-Ca" ∧
    (ParseRegion sampleCountries "us-Ca").IsValid = true ∧
    ParseRegion sampleCountries "US-CA" = "US-CA" :=
  ⟨((ParseRegion_verbatim sampleCountries).1 "us" "Ca" (by decide) (by decide)).1,
   ((ParseRegion_verbatim sampleCountries).1 "us" "Ca" (by decide) (by decide)).2,
   ((ParseRegion_verbatim sampleCountries).1 "US" "CA" (by decide) (by decide)).1⟩

/-- C27, as the claim states it: a valid result of ParseRegion need not split into two
non-empty parts; with a validator that accepts "US" the input "US-" is accepted and its
subdivision part is empty. -/
theorem ParseRegion_accepts_empty_subdivision :
    ¬ (∀ (cv : CountryValidator) (s : String), (ParseRegion cv s).IsValid = true →
      ∃ a b : String, ParseRegion cv s = a ++ "-" ++ b ∧ '-' ∉ a.data ∧ a ≠ "" ∧ b ≠ "" ∧
        cv.IsValid (cv.ParseCountry a) = true) := by
  intro h
  obtain ⟨a, b, e, hn, -, hb, -⟩ := h sampleCountries "US-" (by decide)
  have e' : ("US-" : String) = a ++ "-" ++ b := by
    rw [← e]; decide
  have hc := cutFirst_append hn b.data
  rw [← hyphen_join_data, ← e'] at hc
  have hd : cutFirst '-' ("US-" : String).data = some (['U', 'S'], []) := by decide
  rw [hd] at hc
  injection hc with hc
  have hb' : b.data = [] := (Prod.mk.inj hc).2.symm
  exact hb (String.ext hb')

/-- C27, amended: every valid result of ParseRegion is a part without hyphen that the
country validator accepts, a hyphen, and a rest; the first part is non-empty when the
validator rejects the empty string, and the rest may be empty: "US-" is accepted when "US"
is a valid country. -/
theorem ParseRegion_invariant (cv : CountryValidator) :
    (∀ s : String, (ParseRegion cv s).IsValid = true →
      ∃ a b : String, ParseRegion cv s = a ++ "-" ++ b ∧ '-' ∉ a.data ∧
        SplitN2 (ParseRegion cv s) '-' = [a, b] ∧
        cv.IsValid (cv.ParseCountry a) = true ∧
        (cv.IsValid (cv.ParseCountry "") = false → a ≠ "")) ∧
    (cv.IsValid (cv.ParseCountry "US") = true →
      ParseRegion cv "US-" = "US-" ∧ SplitN2 (ParseRegion cv "US-") '-' = ["US", ""]) := by
  constructor
  · intro s hv
    have hne := (Region_IsValid_iff _).mp hv
    obtain ⟨e, a, b, hs, hn, ha⟩ := ParseRegion_valid_split cv s hne
    refine ⟨a, b, by rw [e, hs], hn, ?_, ha, ?_⟩
    · rw [e, hs]
      unfold SplitN2
      rw [hyphen_join_data, cutFirst_append hn]
    · intro h0 ea
      rw [ea, h0] at ha
      exact Bool.noConfusion ha
  · intro hv
    have e : ParseRegion cv "US-" = "US-" := by
      have := ParseRegion_join cv "US" "" (by decide)
      rw [if_pos hv] at this
      exact this
    exact ⟨e, by rw [e]; decide⟩

theorem ParseRegion_invariant_witness :
    (∃ a b : String, ParseRegion sampleCountries "US-CA" = a ++ "-" ++ b ∧ '-' ∉ a.data ∧
        SplitN2 (ParseRegion sampleCountries "US-CA") '-' = [a, b] ∧
        sampleCountries.IsValid (sampleCountries.ParseCountry a) = true ∧
        (sampleCountries.IsValid (sampleCountries.ParseCountry "") = false → a ≠ "")) ∧
    (ParseRegion sampleCountries "US-" = "US-" ∧
      SplitN2 (ParseRegion sampleCountries "US-") '-' = ["US", ""]) :=
  ⟨(ParseRegion_invariant sampleCountries).1 "US-CA" (by decide),
   (ParseRegion_invariant sampleCountries).2 (by decide)⟩

/-- C28: for every region r returned by ParseRegion, Country of r is the empty country when
r is undefined, and otherwise r is a part without hyphen, a hyphen and a rest, Country of r
is that first part, and the country validator accepts it; with "US" valid, the country of
ParseRegion of "US-CA" is "US". -/
theorem Region_Country_spec (cv : CountryValidator) :
    (∀ s : String, ParseRegion cv s = RegionUndefined → (ParseRegion cv s).Country = "") ∧
    (∀ s : String, ParseRegion cv s ≠ RegionUndefined →
      ∃ a b : String, ParseRegion cv s = a ++ "-" ++ b ∧ '-' ∉ a.data ∧
        (ParseRegion cv s).Country = a ∧ cv.IsValid (cv.ParseCountry a) = true) ∧
    (cv.IsValid (cv.ParseCountry "US") = true → (ParseRegion cv "US-CA").Country = "US") := by
  refine ⟨?_, ?_, ?_⟩
  · intro s h
    rw [h]
    rfl
  · intro s hne
    obtain ⟨e, a, b, hs, hn, ha⟩ := ParseRegion_valid_split cv s hne
    refine ⟨a, b, by rw [e, hs], hn, ?_, ha⟩
    rw [e, hs]
    exact Region_Country_join a b hn
  · intro hv
    have e : ParseRegion cv "US-CA" = "US-CA" := by
      have := ParseRegion_join cv "US" "CA" (by decide)
      rw [if_pos hv] at this
      exact this
    rw [e]
    decide

theorem Region_Country_spec_witness :
    (ParseRegion sampleCountries "USCA").Country = "" ∧
    (∃ a b : String, ParseRegion sampleCountries "us-ny" = a ++ "-" ++ b ∧ '-' ∉ a.data ∧
        (ParseRegion sampleCountries "us-ny").Country = a ∧
        sampleCountries.IsValid (sampleCountries.ParseCountry a) = true) ∧
    (ParseRegion sampleCountries "US-CA").Country = "US" :=
  ⟨(Region_Country_spec sampleCountries).1 "USCA" (by decide),
   (Region_Country_spec sampleCountries).2.1 "us-ny" (by decide),
   (Region_Country_spec sampleCountries).2.2 (by decide)⟩

/-! ## Claims about the code suffix and totality of Format -/

/-- C21: Format with WithCurrency on returns what Format returns with WithCurrency off and
otherwise equal options, followed by one space and the code; the space and the code end the
result. -/
theorem Format_currency_suffix (c : Currency) (val : Float64) (o : CurrencyOptions) :
    ∃ n,
      c.Format val (some ⟨o.WithCents, false, o.WithSymbol, o.WithSymbolSpace,
        o.WithThousandsSeparator⟩) = some n ∧
      c.Format val (some ⟨o.WithCents, true, o.WithSymbol, o.WithSymbolSpace,
        o.WithThousandsSeparator⟩) = some (n ++ " " ++ c) ∧
      (" " ++ c).data <:+ (n ++ " " ++ c).data := by
  obtain ⟨integer, fractional, grouped, hs, hg, hf⟩ := Format_steps c val
    ⟨o.WithCents, false, o.WithSymbol, o.WithSymbolSpace, o.WithThousandsSeparator⟩
  obtain ⟨integer', fractional', grouped', hs', hg', hf'⟩ := Format_steps c val
    ⟨o.WithCents, true, o.WithSymbol, o.WithSymbolSpace, o.WithThousandsSeparator⟩
  have e := hs.symm.trans hs'
  injection e with e
  obtain ⟨e1, e2⟩ := Prod.mk.inj e
  subst e1 e2
  simp only at hg hg' hf hf'
  have eg := hg.symm.trans hg'
  injection eg with eg
  subst eg
  refine ⟨_, hf, ?_, ?_⟩
  · rw [hf']
    simp [currency.addSymbol]
  · rw [String.append_assoc, String.data_append]
    exact List.suffix_append _ _

/-- C22: Format returns a string for every amount (finite or not), every code and every
option pointer, nil included, and nil is treated as the defaults; the slice expression of
splitValue is in range for every record and amount, and the slice expressions of
separateThousands are in range for every printed integer part. -/
theorem Format_total :
    (∀ (c : Currency) (val : Float64) (opts : Option CurrencyOptions),
      ∃ r, c.Format val opts = some r) ∧
    (∀ (c : Currency) (val : Float64), c.Format val none = c.Format val (some NewCurrencyOptions)) ∧
    (∀ (cc : currency) (val : Float64), ∃ p, cc.splitValue val = some p) ∧
    (∀ (cc : currency) (x : Float64), ∃ r, cc.separateThousands (fmtFloat 0 x) = some r) :=
  ⟨Format_isSome, Format_nil, fun cc val => ⟨_, splitValue_eq cc val⟩,
    fun cc x => separateThousands_isSome cc (fmtFloat_ascii 0 x)⟩

/-! ## Claims about the option builders -/

/-- C23: on every heap, whatever was allocated and changed before, NewCurrencyOptions returns
a pointer that was not in use, to a struct holding WithCents, WithSymbol and
WithThousandsSeparator on and WithCurrency and WithSymbolSpace off, and leaves the structs
allocated before as they are; after a builder call on an earlier result a new result still
holds the defaults. -/
theorem NewCurrencyOptions_defaults :
    NewCurrencyOptions = ⟨true, false, true, false, true⟩ ∧
    (∀ h : OptionsHeap,
      (allocCurrencyOptions h).1[(allocCurrencyOptions h).2]? =
        some ⟨true, false, true, false, true⟩ ∧
      h[(allocCurrencyOptions h).2]? = none ∧
      ∀ q : Nat, q ≠ (allocCurrencyOptions h).2 → (allocCurrencyOptions h).1[q]? = h[q]?) ∧
    (∀ (h : OptionsHeap) (f : Bool), ∃ h2,
      CurrencyOptions.Cents (allocCurrencyOptions h).1 (allocCurrencyOptions h).2 f =
        some (h2, (allocCurrencyOptions h).2) ∧
      (allocCurrencyOptions h2).2 ≠ (allocCurrencyOptions h).2 ∧
      (allocCurrencyOptions h2).1[(allocCurrencyOptions h2).2]? =
        some ⟨true, false, true, false, true⟩ ∧
      (allocCurrencyOptions h2).1[(allocCurrencyOptions h).2]? =
        some ⟨f, false, true, false, true⟩) := by
  have key : ∀ h : OptionsHeap,
      (allocCurrencyOptions h).1[(allocCurrencyOptions h).2]? =
        some ⟨true, false, true, false, true⟩ := by
    intro h
    simp [allocCurrencyOptions, NewCurrencyOptions]
  refine ⟨rfl, ?_, ?_⟩
  · intro h
    refine ⟨key h, by simp [allocCurrencyOptions], ?_⟩
    intro q hq
    simp only [allocCurrencyOptions] at hq ⊢
    rcases Nat.lt_or_gt_of_ne hq with hlt | hgt
    · rw [List.getElem?_append_left hlt]
    · rw [List.getElem?_eq_none (by simp; omega), List.getElem?_eq_none (by omega)]
  · intro h f
    refine ⟨(h ++ [NewCurrencyOptions]).set h.length ⟨f, false, true, false, true⟩,
      ?_, ?_, key _, ?_⟩
    · simp [CurrencyOptions.Cents, allocCurrencyOptions, NewCurrencyOptions]
    · simp [allocCurrencyOptions]
    · simp only [allocCurrencyOptions]
      rw [List.getElem?_append_left (by simp)]
      simp

theorem heap_set {h : OptionsHeap} {o : Nat} {s : CurrencyOptions} (hs : h[o]? = some s)
    (t : CurrencyOptions) :
    (h.set o t)[o]? = some t ∧ ∀ q : Nat, q ≠ o → (h.set o t)[q]? = h[q]? := by
  have hlt : o < h.length := by
    by_contra hge
    rw [List.getElem?_eq_none (by omega)] at hs
    exact Option.noConfusion hs
  constructor
  · simp [List.getElem?_set, hlt]
  · intro q hq
    simp [List.getElem?_set, Ne.symm hq]

/-- C24: each builder method, called on a pointer o to a struct s, returns o, leaves in the
struct at o its own toggle equal to f and the other four toggles as they were in s, and
leaves every other struct as it was. -/
theorem builders_frame (h : OptionsHeap) (o : Nat) (f : Bool) (s : CurrencyOptions)
    (hs : h[o]? = some s) :
    (∃ h2, CurrencyOptions.Cents h o f = some (h2, o) ∧
      h2[o]? = some ⟨f, s.WithCurrency, s.WithSymbol, s.WithSymbolSpace,
        s.WithThousandsSeparator⟩ ∧
      ∀ q : Nat, q ≠ o → h2[q]? = h[q]?) ∧
    (∃ h2, CurrencyOptions.Currency h o f = some (h2, o) ∧
      h2[o]? = some ⟨s.WithCents, f, s.WithSymbol, s.WithSymbolSpace,
        s.WithThousandsSeparator⟩ ∧
      ∀ q : Nat, q ≠ o → h2[q]? = h[q]?) ∧
    (∃ h2, CurrencyOptions.Symbol h o f = some (h2, o) ∧
      h2[o]? = some ⟨s.WithCents, s.WithCurrency, f, s.WithSymbolSpace,
        s.WithThousandsSeparator⟩ ∧
      ∀ q : Nat, q ≠ o → h2[q]? = h[q]?) ∧
    (∃ h2, CurrencyOptions.Space h o f = some (h2, o) ∧
      h2[o]? = some ⟨s.WithCents, s.WithCurrency, s.WithSymbol, f,
        s.WithThousandsSeparator⟩ ∧
      ∀ q : Nat, q ≠ o → h2[q]? = h[q]?) ∧
    (∃ h2, CurrencyOptions.Separator h o f = some (h2, o) ∧
      h2[o]? = some ⟨s.WithCents, s.WithCurrency, s.WithSymbol, s.WithSymbolSpace, f⟩ ∧
      ∀ q : Nat, q ≠ o → h2[q]? = h[q]?) := by
  refine ⟨⟨_, by simp only [CurrencyOptions.Cents, hs], (heap_set hs _).1, (heap_set hs _).2⟩,
    ⟨_, by simp only [CurrencyOptions.Currency, hs], (heap_set hs _).1, (heap_set hs _).2⟩,
    ⟨_, by simp only [CurrencyOptions.Symbol, hs], (heap_set hs _).1, (heap_set hs _).2⟩,
    ⟨_, by simp only [CurrencyOptions.Space, hs], (heap_set hs _).1, (heap_set hs _).2⟩,
    ⟨_, by simp only [CurrencyOptions.Separator, hs], (heap_set hs _).1, (heap_set hs _).2⟩⟩

theorem builders_frame_witness :
    CurrencyOptions.Cents [⟨true, false, true, false, true⟩, ⟨false, true, false, true, false⟩]
        1 true =
      some ([⟨true, false, true, false, true⟩, ⟨true, true, false, true, false⟩], 1) ∧
    ∃ h2, CurrencyOptions.Space
        [⟨true, false, true, false, true⟩, ⟨false, true, false, true, false⟩] 0 true =
        some (h2, 0) ∧
      h2[0]? = some ⟨true, false, true, true, true⟩ ∧
      ∀ q : Nat, q ≠ 0 →
        h2[q]? = [(⟨true, false, true, false, true⟩ : CurrencyOptions),
          ⟨false, true, false, true, false⟩][q]? :=
  ⟨by decide,
   (builders_frame [⟨true, false, true, false, true⟩, ⟨false, true, false, true, false⟩]
      0 true ⟨true, false, true, false, true⟩ rfl).2.2.2.1⟩

/-! ## Claims about UnmarshalText and Scan -/

/-- C29: for Currency, Language and Region, UnmarshalText of d returns an error exactly when
the parse of d is not valid; the error message names the category and holds d between
quotes; without error the receiver is the parse of d. -/
theorem UnmarshalText_spec :
    (∀ (tbl : CaseTables) (r : Currency) (d : String),
      (Currency.UnmarshalText tbl r d).2.isSome = !(ParseCurrency tbl d).IsValid ∧
      ((ParseCurrency tbl d).IsValid = false → (Currency.UnmarshalText tbl r d).2 =
        some ("iso: invalid ISO currency code \x27" ++ d ++ "\x27")) ∧
      ((ParseCurrency tbl d).IsValid = true →
        Currency.UnmarshalText tbl r d = (ParseCurrency tbl d, none))) ∧
    (∀ (tbl : CaseTables) (r : Language) (d : String),
      (Language.UnmarshalText tbl r d).2.isSome = !(ParseLanguage tbl d).IsValid ∧
      ((ParseLanguage tbl d).IsValid = false → (Language.UnmarshalText tbl r d).2 =
        some ("iso: invalid ISO 639-1/2BT:2002 language code \x27" ++ d ++ "\x27")) ∧
      ((ParseLanguage tbl d).IsValid = true →
        Language.UnmarshalText tbl r d = (ParseLanguage tbl d, none))) ∧
    (∀ (cv : CountryValidator) (r : Region) (d : String),
      (Region.UnmarshalText cv r d).2.isSome = !(ParseRegion cv d).IsValid ∧
      ((ParseRegion cv d).IsValid = false → (Region.UnmarshalText cv r d).2 =
        some ("iso: invalid ISO region code \x27" ++ d ++ "\x27")) ∧
      ((ParseRegion cv d).IsValid = true →
        Region.UnmarshalText cv r d = (ParseRegion cv d, none))) := by
  refine ⟨?_, ?_, ?_⟩
  · intro tbl r d
    unfold Currency.UnmarshalText
    cases h : (ParseCurrency tbl d).IsValid <;> simp [h]
  · intro tbl r d
    unfold Language.UnmarshalText
    cases h : (ParseLanguage tbl d).IsValid <;> simp [h]
  · intro cv r d
    unfold Region.UnmarshalText
    cases h : (ParseRegion cv d).IsValid <;> simp [h]

theorem UnmarshalText_spec_witness :
    (Currency.UnmarshalText asciiTables "EUR" "usdx").2 =
      some ("iso: invalid ISO currency code \x27" ++ "usdx" ++ "\x27") ∧
    Currency.UnmarshalText asciiTables "EUR" "usd" = (ParseCurrency asciiTables "usd", none) ∧
    (Language.UnmarshalText asciiTables "deu" "q").2 =
      some ("iso: invalid ISO 639-1/2BT:2002 language code \x27" ++ "q" ++ "\x27") ∧
    Language.UnmarshalText asciiTables "deu" "fr" = (ParseLanguage asciiTables "fr", none) ∧
    (Region.UnmarshalText sampleCountries "US-CA" "USNY").2 =
      some ("iso: invalid ISO region code \x27" ++ "USNY" ++ "\x27") ∧
    Region.UnmarshalText sampleCountries "US-CA" "US-NY" =
      (ParseRegion sampleCountries "US-NY", none) :=
  ⟨(UnmarshalText_spec.1 asciiTables "EUR" "usdx").2.1 (by decide!),
   (UnmarshalText_spec.1 asciiTables "EUR" "usd").2.2 (by decide!),
   (UnmarshalText_spec.2.1 asciiTables "deu" "q").2.1 (by decide!),
   (UnmarshalText_spec.2.1 asciiTables "deu" "fr").2.2 (by decide!),
   (UnmarshalText_spec.2.2 sampleCountries "US-CA" "USNY").2.1 (by decide),
   (UnmarshalText_spec.2.2 sampleCountries "US-CA" "US-NY").2.2 (by decide)⟩

/-- C30, the code at the failing inputs: Scan of a value that is neither a string nor a byte
slice (an integer, nil) returns no error when the receiver holds a valid code, and leaves the
receiver as it is; with an undefined receiver the same call returns the error. -/
theorem Scan_other_type_keeps_receiver :
    (∀ tbl : CaseTables, Currency.Scan tbl "USD" (.other "42") = ("USD", none)) ∧
    (∀ tbl : CaseTables, Language.Scan tbl "deu" (.other "<nil>") = ("deu", none)) ∧
    (∀ cv : CountryValidator, Region.Scan cv "US-CA" (.other "42") = ("US-CA", none)) ∧
    (∀ tbl : CaseTables, Currency.Scan tbl "" (.other "42") =
      ("", some "iso: invalid ISO currency code \x2742\x27")) := by
  refine ⟨fun _ => rfl, fun _ => rfl, fun _ => rfl, fun _ => ?_⟩
  simp only [Currency.Scan]
  decide

/-! ## Claims about the keys and the ratios of the currencies table -/

theorem currencies_keys_facts : ∀ p ∈ currencies,
    asciiOnly p.1 = true ∧ ToUpper asciiTables p.1 = p.1 ∧ p.1 ≠ CurrencyUndefined ∧
    decide (p.1 ∈ ISO_4217_CURRENCY_CODES) =
      !(["BTC", "EEK", "JEP", "LTL", "LVL", "MTL", "SKK", "ZMK", "ZWD", "ZWN",
        "ZWR"].contains p.1) := by
  decide!

theorem currencies_ratio_facts : ∀ p ∈ currencies,
    (p.1 ≠ "BHD" → p.1 ≠ "MGA" → p.1 ≠ "MRO" →
      0 ≤ p.2.SubUnitPrecision ∧ p.2.SubUnitToUnit = 10 ^ p.2.SubUnitPrecision.toNat) ∧
    ((p.1 = "MGA" ∨ p.1 = "MRO") → p.2.SubUnitToUnit = 5 ∧ p.2.SubUnitPrecision = 2) := by
  decide!

/-- C31, as the claim states it: not every key of currencies is in ISO_4217_CURRENCY_CODES;
"BTC" is a key, is not in the code table, and ParseCurrency of it is undefined. -/
theorem currencies_key_not_code :
    ¬ (∀ p ∈ currencies, p.1 ∈ ISO_4217_CURRENCY_CODES ∧
      (ParseCurrency asciiTables p.1).IsValid = true ∧ ParseCurrency asciiTables p.1 = p.1) := by
  intro h
  have hm : ("BTC", currency.mk 0 "Bitcoin" "B⃦" true [] "," "." "Satoshi" 100000000 8 "") ∈
      currencies := by decide!
  have h1 := (h _ hm).1
  have h2 : "BTC" ∉ ISO_4217_CURRENCY_CODES := by decide!
  exact h2 h1

/-- C31, amended: every key of currencies other than BTC, EEK, JEP, LTL, LVL, MTL, SKK, ZMK,
ZWD, ZWN and ZWR is a member of ISO_4217_CURRENCY_CODES, and ParseCurrency of it is valid and
returns it; these eleven keys are not in the code table and ParseCurrency of them is
undefined. -/
theorem currencies_keys_of_codes (tbl : CaseTables) (p : String × currency)
    (h : p ∈ currencies) :
    (p.1 ∉ ["BTC", "EEK", "JEP", "LTL", "LVL", "MTL", "SKK", "ZMK", "ZWD", "ZWN", "ZWR"] →
      p.1 ∈ ISO_4217_CURRENCY_CODES ∧ (ParseCurrency tbl p.1).IsValid = true ∧
      ParseCurrency tbl p.1 = p.1) ∧
    (p.1 ∈ ["BTC", "EEK", "JEP", "LTL", "LVL", "MTL", "SKK", "ZMK", "ZWD", "ZWN", "ZWR"] →
      p.1 ∉ ISO_4217_CURRENCY_CODES ∧ ParseCurrency tbl p.1 = CurrencyUndefined) := by
  obtain ⟨ha, hu, hne, hd⟩ := currencies_keys_facts p h
  have hp : ParseCurrency tbl p.1 =
      if p.1 ∈ ISO_4217_CURRENCY_CODES then p.1 else CurrencyUndefined := by
    rw [ParseCurrency_eq, ToUpper_ascii tbl ha, hu]
  constructor
  · intro hc
    have hc' : (["BTC", "EEK", "JEP", "LTL", "LVL", "MTL", "SKK", "ZMK", "ZWD", "ZWN",
        "ZWR"].contains p.1) = false := by simpa using hc
    rw [hc'] at hd
    have hmem : p.1 ∈ ISO_4217_CURRENCY_CODES := by simpa using hd
    rw [if_pos hmem] at hp
    exact ⟨hmem, by rw [hp]; exact (Currency_IsValid_iff _).mpr hne, hp⟩
  · intro hc
    have hc' : (["BTC", "EEK", "JEP", "LTL", "LVL", "MTL", "SKK", "ZMK", "ZWD", "ZWN",
        "ZWR"].contains p.1) = true := by simpa using hc
    rw [hc'] at hd
    have hmem : p.1 ∉ ISO_4217_CURRENCY_CODES := by simpa using hd
    rw [if_neg hmem] at hp
    exact ⟨hmem, hp⟩

theorem currencies_keys_of_codes_witness :
    ("USD" ∈ ISO_4217_CURRENCY_CODES ∧ (ParseCurrency asciiTables "USD").IsValid = true ∧
      ParseCurrency asciiTables "USD" = "USD") ∧
    ("ZWR" ∉ ISO_4217_CURRENCY_CODES ∧ ParseCurrency asciiTables "ZWR" = CurrencyUndefined) :=
  ⟨(currencies_keys_of_codes asciiTables
      ("USD", currency.mk 840 "United States Dollar" "$" true ["US$"] "," "." "Cent" 100 2 "$")
      (by decide!)).1 (by decide),
   (currencies_keys_of_codes asciiTables
      ("ZWR", currency.mk 935 "Zimbabwean Dollar" "$" true ["Z$"] "," "." "Cent" 100 2 "$")
      (by decide!)).2 (by decide)⟩

/-- C38, as the claim states it: not every record has SubUnitToUnit equal to ten to the power
SubUnitPrecision; the record of MGA has ratio 5 and precision 2. -/
theorem currencies_ratio_not_power_of_ten :
    ¬ (∀ p ∈ currencies, p.2.SubUnitToUnit = 10 ^ p.2.SubUnitPrecision.toNat) := by
  intro h
  have hm : ("MGA", currency.mk 969 "Malagasy Ariary" "Ar" true [] "," "." "Iraimbilanja" 5 2
      "") ∈ currencies := by decide!
  exact absurd (h _ hm) (by decide)

/-- C38, amended: every record of currencies other than those of BHD, MGA and MRO has a
non-negative SubUnitPrecision and SubUnitToUnit equal to ten to that power; the records of
MGA and MRO have the ratio 5 with precision 2. -/
theorem currencies_ratio_consistent (p : String × currency) (h : p ∈ currencies) :
    (p.1 ≠ "BHD" → p.1 ≠ "MGA" → p.1 ≠ "MRO" →
      0 ≤ p.2.SubUnitPrecision ∧ p.2.SubUnitToUnit = 10 ^ p.2.SubUnitPrecision.toNat) ∧
    ((p.1 = "MGA" ∨ p.1 = "MRO") → p.2.SubUnitToUnit = 5 ∧ p.2.SubUnitPrecision = 2) :=
  currencies_ratio_facts p h

theorem currencies_ratio_consistent_witness :
    (0 ≤ (currency.mk 414 "Kuwaiti Dinar" "د.ك" true ["K.D."] "," "." "Fils" 1000 3
        "").SubUnitPrecision ∧
      (currency.mk 414 "Kuwaiti Dinar" "د.ك" true ["K.D."] "," "." "Fils" 1000 3
        "").SubUnitToUnit = 10 ^ (3 : Int).toNat) ∧
    ((currency.mk 969 "Malagasy Ariary" "Ar" true [] "," "." "Iraimbilanja" 5 2
        "").SubUnitToUnit = 5 ∧
      (currency.mk 969 "Malagasy Ariary" "Ar" true [] "," "." "Iraimbilanja" 5 2
        "").SubUnitPrecision = 2) :=
  ⟨(currencies_ratio_consistent
      ("KWD", currency.mk 414 "Kuwaiti Dinar" "د.ك" true ["K.D."] "," "." "Fils" 1000 3 "")
      (by decide!)).1 (by decide) (by decide) (by decide),
   (currencies_ratio_consistent
      ("MGA", currency.mk 969 "Malagasy Ariary" "Ar" true [] "," "." "Iraimbilanja" 5 2 "")
      (by decide!)).2 (Or.inl rfl)⟩

/-! ## Claims about a failed UnmarshalText -/

/-- C37: for Currency, Language and Region, when the parse of d is not valid, UnmarshalText
returns an error and the receiver after the call is the receiver before the call. -/
theorem UnmarshalText_failure_keeps_receiver :
    (∀ (tbl : CaseTables) (r0 : Currency) (d : String),
      (ParseCurrency tbl d).IsValid = false →
      (Currency.UnmarshalText tbl r0 d).1 = r0 ∧
      (Currency.UnmarshalText tbl r0 d).2.isSome = true) ∧
    (∀ (tbl : CaseTables) (r0 : Language) (d : String),
      (ParseLanguage tbl d).IsValid = false →
      (Language.UnmarshalText tbl r0 d).1 = r0 ∧
      (Language.UnmarshalText tbl r0 d).2.isSome = true) ∧
    (∀ (cv : CountryValidator) (r0 : Region) (d : String),
      (ParseRegion cv d).IsValid = false →
      (Region.UnmarshalText cv r0 d).1 = r0 ∧
      (Region.UnmarshalText cv r0 d).2.isSome = true) := by
  refine ⟨?_, ?_, ?_⟩
  · intro tbl r0 d h
    simp [Currency.UnmarshalText, h]
  · intro tbl r0 d h
    simp [Language.UnmarshalText, h]
  · intro cv r0 d h
    simp [Region.UnmarshalText, h]

theorem UnmarshalText_failure_keeps_receiver_witness :
    (Currency.UnmarshalText asciiTables "EUR" "nope").1 = "EUR" ∧
    (Currency.UnmarshalText asciiTables "EUR" "nope").2.isSome = true ∧
    (Language.UnmarshalText asciiTables "deu" "q").1 = "deu" ∧
    (Region.UnmarshalText sampleCountries "US-CA" "ZZ-1").1 = "US-CA" :=
  ⟨(UnmarshalText_failure_keeps_receiver.1 asciiTables "EUR" "nope" (by decide!)).1,
   (UnmarshalText_failure_keeps_receiver.1 asciiTables "EUR" "nope" (by decide!)).2,
   (UnmarshalText_failure_keeps_receiver.2.1 asciiTables "deu" "q" (by decide!)).1,
   (UnmarshalText_failure_keeps_receiver.2.2 sampleCountries "US-CA" "ZZ-1" (by decide)).1⟩

/-! ## Format at the inputs where the printed number is wrong -/

/-- C35, the code at the failing inputs: for the double nearest to 0.999 the fraction rounds
to "1.00", the slice keeps "00" and the integer part stays "0", so Format in USD returns
"$0.00"; for 2047 * 2^-10 (1.9990234375) it returns "$1.00". -/
theorem Format_drops_carry :
    (Float64.finite false 8998192055486251 (-53)).representable = true ∧
    (currency.mk 840 "United States Dollar" "$" true ["US$"] "," "." "Cent" 100 2
      "$").splitValue (.finite false 8998192055486251 (-53)) = some ("0", "00") ∧
    Currency.Format "USD" (.finite false 8998192055486251 (-53)) none = some "$0.00" ∧
    (Float64.finite false 2047 (-10)).toRat = 1.9990234375 ∧
    Currency.Format "USD" (.finite false 2047 (-10)) none = some "$1.00" := by
  refine ⟨by decide, by decide!, by decide!, by norm_num [Float64.toRat], by decide!⟩

/-- C36, the code at the failing inputs: the records of VND, CLF, XAG and XAU have precision
0 and a subunit name, and Format ends the number with the decimal mark; the records of JPY,
VUV and XDR have no subunit name and no mark is printed. -/
theorem Format_precision_zero_mark :
    (Currency.metadata "VND").SubUnitPrecision = 0 ∧
    Currency.Format "VND" (.finite false 1000 0) none = some "₫1.000," ∧
    Currency.Format "CLF" (.finite false 1000 0) none = some "UF1.000," ∧
    Currency.Format "XAG" (.finite false 1000 0) none = some "1,000.oz t" ∧
    Currency.Format "XAU" (.finite false 1000 0) none = some "1,000.oz t" ∧
    Currency.Format "JPY" (.finite false 1000 0) none = some "¥1,000" ∧
    Currency.Format "VUV" (.finite false 1000 0) none = some "Vt1,000" ∧
    Currency.Format "XDR" (.finite false 1000 0) none = some "1,000SDR" := by
  refine ⟨by decide!, by decide!, by decide!, by decide!, by decide!, by decide!, by decide!,
    by decide!⟩

/-! ## The fractional digits -/

theorem roundHalfEven_le_succ (n d : Nat) : roundHalfEven n d ≤ n / d + 1 := by
  unfold roundHalfEven
  split_ifs <;> omega

/-- The result of roundHalfEven is a nearest integer to `n / d`, and the even one of the two
when `n / d` lies halfway between two integers. -/
theorem roundHalfEven_nearest (n d : Nat) (hd : 0 < d) :
    2 * (roundHalfEven n d * d) ≤ 2 * n + d ∧ 2 * n ≤ 2 * (roundHalfEven n d * d) + d ∧
    ((2 * (roundHalfEven n d * d) = 2 * n + d ∨ 2 * n = 2 * (roundHalfEven n d * d) + d) →
      roundHalfEven n d % 2 = 0) := by
  have h1 : d * (n / d) + n % d = n := Nat.div_add_mod n d
  have h2 : n % d < d := Nat.mod_lt n hd
  have h3 : (n / d + 1) * d = d * (n / d) + d := by ring
  have h4 : n / d * d = d * (n / d) := by ring
  unfold roundHalfEven
  split_ifs with ha hb hc
  · rw [h3]; omega
  · rw [h3]; omega
  · rw [h4]; omega
  · rw [h4]; omega

theorem fraction_round_le (m d p : Nat) (h : m < d) :
    roundHalfEven (m * 10 ^ p) d ≤ 10 ^ p := by
  have hlt : m * 10 ^ p / d < 10 ^ p := by
    rw [Nat.div_lt_iff_lt_mul (by omega)]
    have hpos : 0 < 10 ^ p := Nat.pow_pos (by decide)
    calc m * 10 ^ p < d * 10 ^ p := Nat.mul_lt_mul_of_pos_right h hpos
      _ = 10 ^ p * d := Nat.mul_comm _ _
  have := roundHalfEven_le_succ (m * 10 ^ p) d
  omega

theorem repr_data_of_le_one {k : Nat} (h : k ≤ 1) : (Nat.repr k).data.length = 1 := by
  interval_cases k <;> rfl

theorem digitChar_isDigit : ∀ k < 10, (Nat.digitChar k).isDigit = true := by
  decide

theorem fracDigits_isDigit (prec n : Nat) : ∀ ch ∈ (fracDigits prec n).data,
    ch.isDigit = true := by
  intro ch hc
  simp only [fracDigits, List.mem_map] at hc
  obtain ⟨j, -, rfl⟩ := hc
  exact digitChar_isDigit _ (Nat.mod_lt _ (by decide))

/-- The fraction string of a non-negative number below one: the digits after "0." or "1.". -/
theorem fmtFloat_drop_two (p m : Nat) (e : Int) (hp : 0 < p)
    (hlt : if 0 ≤ e then m = 0 else m < 2 ^ (-e).toNat) :
    (fmtFloat p (.finite false m e)).data.drop 2 =
      (fracDigits p (roundHalfEven (if 0 ≤ e then m * 2 ^ e.toNat * 10 ^ p else m * 10 ^ p)
        (if 0 ≤ e then 1 else 2 ^ (-e).toNat) % 10 ^ p)).data := by
  have hp' : p ≠ 0 := Nat.pos_iff_ne_zero.mp hp
  have hq : roundHalfEven (if 0 ≤ e then m * 2 ^ e.toNat * 10 ^ p else m * 10 ^ p)
      (if 0 ≤ e then 1 else 2 ^ (-e).toNat) ≤ 10 ^ p := by
    by_cases he : 0 ≤ e
    · rw [if_pos he] at hlt
      simp only [if_pos he, hlt]
      simp [roundHalfEven]
    · rw [if_neg he] at hlt
      simp only [if_neg he]
      exact fraction_round_le m _ p hlt
  have hk : roundHalfEven (if 0 ≤ e then m * 2 ^ e.toNat * 10 ^ p else m * 10 ^ p)
      (if 0 ≤ e then 1 else 2 ^ (-e).toNat) / 10 ^ p ≤ 1 := by
    have hpos : 0 < 10 ^ p := Nat.pow_pos (by decide)
    have := Nat.div_le_div_right (c := 10 ^ p) hq
    rwa [Nat.div_self hpos] at this
  have hr := repr_data_of_le_one hk
  simp only [fmtFloat, if_neg hp', Bool.false_eq_true, if_false, String.data_append]
  obtain ⟨c, hc⟩ := List.length_eq_one.mp hr
  rw [hc]
  rfl

theorem Modf_fraction_lt_one (mant : Nat) (exp : Int) :
    (math.Modf (.finite false mant exp)).2 =
      .finite false (if 0 ≤ exp then 0 else mant % 2 ^ (-exp).toNat)
        (if 0 ≤ exp then 0 else exp) := by
  by_cases h : 0 ≤ exp
  · simp [math.Modf, h]
  · simp [math.Modf, h]

theorem splitValue_fraction_eq (cc : currency) (mant : Nat) (exp : Int)
    (hp : 0 < cc.SubUnitPrecision) :
    cc.splitValue (.finite false mant exp) =
      some (fmtFloat 0 (math.Modf (.finite false mant exp)).1,
        fracDigits cc.SubUnitPrecision.toNat
          (roundHalfEven
            ((if 0 ≤ exp then 0 else mant % 2 ^ (-exp).toNat) * 10 ^ cc.SubUnitPrecision.toNat)
            (if 0 ≤ exp then 1 else 2 ^ (-exp).toNat) % 10 ^ cc.SubUnitPrecision.toNat)) := by
  have hp' : 0 < cc.SubUnitPrecision.toNat := by omega
  rw [splitValue_eq, if_pos hp, Modf_fraction_lt_one]
  congr 2
  apply String.ext
  by_cases he : 0 ≤ exp
  · have h := fmtFloat_drop_two cc.SubUnitPrecision.toNat 0 0 hp' (by simp)
    simp only [if_pos he]
    simpa using h
  · have h := fmtFloat_drop_two cc.SubUnitPrecision.toNat (mant % 2 ^ (-exp).toNat) exp hp'
      (by rw [if_neg he]; exact Nat.mod_lt _ (Nat.pow_pos (by decide)))
    simp only [if_neg he] at h ⊢
    exact h

/-- The last `prec` digits of `n` do not depend on the digits of `n` above them. -/
theorem fracDigits_mod (prec n : Nat) : fracDigits prec (n % 10 ^ prec) = fracDigits prec n := by
  unfold fracDigits
  congr 1
  apply List.map_congr_left
  intro j hj
  have hjlt : j < prec := List.mem_range.mp hj
  have hsplit : 10 ^ prec = 10 ^ (prec - 1 - j) * 10 ^ (j + 1) := by
    rw [← Nat.pow_add]
    congr 1
    omega
  have hdvd : 10 ∣ 10 ^ (j + 1) := ⟨10 ^ j, by rw [Nat.pow_succ, Nat.mul_comm]⟩
  rw [hsplit, Nat.mod_mul_right_div_self, Nat.mod_mod_of_dvd _ hdvd]

/-! ## Claims about the fractional digits -/

/-- C33: for every finite non-negative amount and every record, splitValue returns a
fractional string of exactly SubUnitPrecision characters, all of them decimal digits, and
the empty string when SubUnitPrecision is 0. -/
theorem splitValue_fraction_digits (cc : currency) (mant : Nat) (exp : Int) :
    ∃ integer fractional,
      cc.splitValue (.finite false mant exp) = some (integer, fractional) ∧
      fractional.data.length = cc.SubUnitPrecision.toNat ∧
      (∀ ch ∈ fractional.data, ch.isDigit = true) ∧
      (cc.SubUnitPrecision = 0 → fractional = "") := by
  by_cases hp : 0 < cc.SubUnitPrecision
  · refine ⟨_, _, splitValue_fraction_eq cc mant exp hp, fracDigits_length _ _,
      fracDigits_isDigit _ _, ?_⟩
    intro h0
    omega
  · refine ⟨_, _, splitValue_eq cc _, ?_, ?_, ?_⟩
    · rw [if_neg hp]
      have : cc.SubUnitPrecision.toNat = 0 := by omega
      rw [this]
      rfl
    · rw [if_neg hp]
      intro ch hc
      simp at hc
    · intro _
      rw [if_neg hp]

theorem splitValue_fraction_digits_witness :
    (currency.mk 840 "United States Dollar" "$" true ["US$"] "," "." "Cent" 100 2
      "$").splitValue (.finite false 2469 (-1)) = some ("1234", "50") ∧
    ∃ integer fractional,
      (currency.mk 392 "Japanese Yen" "¥" true ["円", "圓"] "," "." "" 1 0
        "&#x00A5;").splitValue (.finite false 2469 (-1)) = some (integer, fractional) ∧
      fractional.data.length = (0 : Int).toNat ∧
      (∀ ch ∈ fractional.data, ch.isDigit = true) ∧
      ((0 : Int) = 0 → fractional = "") :=
  ⟨by decide!,
   splitValue_fraction_digits
    (currency.mk 392 "Japanese Yen" "¥" true ["円", "圓"] "," "." "" 1 0 "&#x00A5;") 2469 (-1)⟩

/-- C34, as the claim states it: the tie 0.125 at precision 2 does not give the digits "13",
and Format of 0.125 in USD is not "$0.13". -/
theorem splitValue_tie_not_away_from_zero :
    (Float64.finite false 1 (-3)).toRat = 0.125 ∧
    (Currency.metadata "USD").splitValue (.finite false 1 (-3)) ≠ some ("0", "13") ∧
    Currency.Format "USD" (.finite false 1 (-3)) none ≠ some "$0.13" := by
  refine ⟨by norm_num [Float64.toRat], by decide!, by decide!⟩

/-- C34, amended: with m / d the fractional part of the amount and q the integer nearest to
m / d * 10^p, the even one on a tie, the fractional digits are the last p decimal digits of
q; the ties 0.125 and 0.375 at precision 2 give "12" and "38". -/
theorem splitValue_fraction_ties_even (cc : currency) (mant : Nat) (exp : Int)
    (p d m q : Nat) (hp : (p : Int) = cc.SubUnitPrecision) (hp0 : 0 < p)
    (hd : d = if 0 ≤ exp then 1 else 2 ^ (-exp).toNat)
    (hm : m = if 0 ≤ exp then 0 else mant % 2 ^ (-exp).toNat)
    (hq : q = roundHalfEven (m * 10 ^ p) d) :
    (2 * (q * d) ≤ 2 * (m * 10 ^ p) + d ∧ 2 * (m * 10 ^ p) ≤ 2 * (q * d) + d ∧
      ((2 * (q * d) = 2 * (m * 10 ^ p) + d ∨ 2 * (m * 10 ^ p) = 2 * (q * d) + d) →
        q % 2 = 0)) ∧
    ∃ integer, cc.splitValue (.finite false mant exp) = some (integer, fracDigits p q) := by
  have hdpos : 0 < d := by
    rw [hd]
    split
    · decide
    · exact Nat.pow_pos (by decide)
  refine ⟨by rw [hq]; exact roundHalfEven_nearest _ _ hdpos, ?_⟩
  have hprec : cc.SubUnitPrecision.toNat = p := by omega
  have hpos : 0 < cc.SubUnitPrecision := by omega
  refine ⟨fmtFloat 0 (math.Modf (.finite false mant exp)).1, ?_⟩
  rw [splitValue_fraction_eq cc mant exp hpos, hprec, ← hm, ← hd, ← hq, fracDigits_mod]

theorem splitValue_fraction_ties_even_witness :
    (∃ integer, (Currency.metadata "USD").splitValue (.finite false 1 (-3)) =
      some (integer, fracDigits 2 12)) ∧
    (Currency.metadata "USD").splitValue (.finite false 1 (-3)) = some ("0", "12") ∧
    (Currency.metadata "USD").splitValue (.finite false 3 (-3)) = some ("0", "38") ∧
    Currency.Format "USD" (.finite false 1 (-3)) none = some "$0.12" :=
  ⟨(splitValue_fraction_ties_even (Currency.metadata "USD") 1 (-3) 2 8 1 12
      (by decide!) (by decide) (by decide) (by decide) (by decide)).2,
   by decide!, by decide!, by decide!⟩

/-! ## The grouping loop and the reference grouping -/

theorem isDigit_ascii {c : Char} (h : c.isDigit = true) : c.toNat < 128 := by
  simp only [Char.isDigit, Bool.and_eq_true, decide_eq_true_eq] at h
  have h2 : c.val ≤ 57 := h.2
  rw [UInt32.le_def] at h2
  have h3 : c.val.toNat ≤ 57 := h2
  have : c.toNat = c.val.toNat := rfl
  omega

theorem asciiOnly_of_digits {v : String} (h : ∀ ch ∈ v.data, ch.isDigit = true) :
    asciiOnly v = true :=
  (asciiOnly_iff v).mpr (fun c hc => isDigit_ascii (h c hc))

theorem TrimSuffix_last_three {value : String} (h3 : 3 ≤ value.data.length) :
    TrimSuffix value (String.mk (value.data.drop (value.data.length - 3))) =
      String.mk (value.data.take (value.data.length - 3)) := by
  have hs : HasSuffix value (String.mk (value.data.drop (value.data.length - 3))) = true := by
    simp only [HasSuffix]
    exact List.isSuffixOf_iff_suffix.mpr (List.drop_suffix _ _)
  have hl : (value.data.drop (value.data.length - 3)).length = 3 := by
    rw [List.length_drop]; omega
  simp only [TrimSuffix, hs, if_true, hl]

theorem separateLoop_eq : ∀ (i : Nat) (value : String) (acc : List String),
    asciiOnly value = true → 3 * i ≤ value.data.length →
    separateLoop i value (List.replicate (i + 1) "" ++ acc) =
      some ((cutFromRight i value.data).map String.mk ++ acc) := by
  intro i
  induction i with
  | zero =>
    intro value acc _ _
    simp [separateLoop, cutFromRight]
  | succ i ih =>
    intro value acc ha hl
    have hlen := len_of_ascii ha
    have h3 : 3 ≤ value.data.length := by omega
    have hidx : ((len value : Int) - 3) = ((value.data.length - 3 : Nat) : Int) := by
      rw [hlen]; omega
    have hs := sliceFrom_of_ascii ha (Nat.sub_le value.data.length 3)
    have hset : (List.replicate (i + 1 + 1) "" ++ acc).set (i + 1)
        (String.mk (value.data.drop (value.data.length - 3))) =
        List.replicate (i + 1) "" ++
          (String.mk (value.data.drop (value.data.length - 3)) :: acc) := by
      rw [List.replicate_succ' (i + 1), List.append_assoc,
        List.set_append_right _ _ (by simp)]
      simp
    simp only [separateLoop, hidx, hs, hset, TrimSuffix_last_three h3]
    rw [ih _ _ (asciiOnly_mk_take ha _) (by simp only [List.length_take]; omega)]
    simp [cutFromRight]

theorem Join_single (v sep : String) : Join [v] sep = v := rfl

theorem cutFromRight_flatten : ∀ (k : Nat) (v : List Char), (cutFromRight k v).flatten = v := by
  intro k
  induction k with
  | zero => intro v; simp [cutFromRight]
  | succ k ih => intro v; simp [cutFromRight, ih]

theorem cutFromRight_length : ∀ (k : Nat) (v : List Char), (cutFromRight k v).length = k + 1 := by
  intro k
  induction k with
  | zero => intro v; rfl
  | succ k ih => intro v; simp [cutFromRight, ih]

theorem cutFromRight_shape : ∀ (k : Nat) (v : List Char), 3 * k ≤ v.length →
    ∃ first rest, cutFromRight k v = first :: rest ∧ first.length = v.length - 3 * k ∧
      ∀ chunk ∈ rest, chunk.length = 3 := by
  intro k
  induction k with
  | zero => intro v _; exact ⟨v, [], rfl, by simp, by simp⟩
  | succ k ih =>
    intro v h
    obtain ⟨first, rest, e, hf, hr⟩ := ih (v.take (v.length - 3))
      (by simp only [List.length_take]; omega)
    refine ⟨first, rest ++ [v.drop (v.length - 3)], by simp [cutFromRight, e], ?_, ?_⟩
    · rw [hf]; simp only [List.length_take]; omega
    · intro chunk hc
      rcases List.mem_append.mp hc with hc | hc
      · exact hr chunk hc
      · simp only [List.mem_singleton] at hc
        rw [hc, List.length_drop]; omega

/-- C32: for every digit string v and every separator, separateThousands returns the
reference grouping of v: v itself when v has at most three characters, and otherwise the
chunks of v joined by the separator, where the chunks in order make up v, there are
ceil(len / 3) of them, the first has one to three characters and every other has exactly
three. -/
theorem separateThousands_reference (c : currency) (v : String)
    (hd : ∀ ch ∈ v.data, ch.isDigit = true) :
    c.separateThousands v = some (groupReference v c.ThousandsSeparator) ∧
    (v.data.length ≤ 3 → c.separateThousands v = some v) ∧
    (3 < v.data.length → ∃ first rest,
      c.separateThousands v =
        some (Join ((first :: rest).map String.mk) c.ThousandsSeparator) ∧
      1 ≤ first.length ∧ first.length ≤ 3 ∧ (∀ chunk ∈ rest, chunk.length = 3) ∧
      (first :: rest).flatten = v.data ∧
      (first :: rest).length = (v.data.length + 2) / 3) := by
  have ha := asciiOnly_of_digits hd
  have hlen := len_of_ascii ha
  have hmain : c.separateThousands v = some (groupReference v c.ThousandsSeparator) := by
    unfold currency.separateThousands groupReference
    simp only [hlen]
    by_cases h0 : v.data.length / 3 = 0
    · rw [if_pos h0, if_pos (by omega)]
    · rw [if_neg h0]
      have hch : (if v.data.length % 3 > 0 then v.data.length / 3 + 1
          else v.data.length / 3) = (v.data.length + 2) / 3 - 1 + 1 := by
        split <;> omega
      rw [hch]
      have hloop := separateLoop_eq ((v.data.length + 2) / 3 - 1) v [] ha (by omega)
      simp only [List.append_nil, Nat.add_sub_cancel] at hloop ⊢
      rw [hloop]
      by_cases h3 : v.data.length ≤ 3
      · have hk : (v.data.length + 2) / 3 - 1 = 0 := by omega
        rw [if_pos h3, hk]
        rfl
      · rw [if_neg h3]
        rfl
  refine ⟨hmain, ?_, ?_⟩
  · intro h3
    rw [hmain, groupReference, if_pos h3]
  · intro h3
    obtain ⟨first, rest, e, hf, hr⟩ := cutFromRight_shape ((v.data.length + 2) / 3 - 1) v.data
      (by omega)
    refine ⟨first, rest, ?_, by omega, by omega, hr, ?_, ?_⟩
    · rw [hmain, groupReference, if_neg (by omega), e]
    · rw [← e, cutFromRight_flatten]
    · rw [← e, cutFromRight_length]
      omega

theorem separateThousands_reference_witness :
    (currency.mk 840 "United States Dollar" "$" true ["US$"] "," "." "Cent" 100 2
      "$").separateThousands "1234567" = some "1,234,567" ∧
    (currency.mk 840 "United States Dollar" "$" true ["US$"] "," "." "Cent" 100 2
      "$").separateThousands "1234567" = some (groupReference "1234567" ",") ∧
    (currency.mk 978 "Euro" "€" false [] "." "," "Cent" 100 2
      "&#x20AC;").separateThousands "123" = some "123" :=
  ⟨by decide,
   (separateThousands_reference
      (currency.mk 840 "United States Dollar" "$" true ["US$"] "," "." "Cent" 100 2 "$")
      "1234567" (by decide)).1,
   (separateThousands_reference
      (currency.mk 978 "Euro" "€" false [] "." "," "Cent" 100 2 "&#x20AC;")
      "123" (by decide)).2.1 (by decide)⟩

end Iso
